import Mathlib

/-!
Verification of the agent-orchestration core of the globaltrade-ai backend.

The embedding models Python dictionaries as association lists over a
JSON-like value type `Val`, the OpenAI completion client and `json.loads`
as components of an explicit environment, and each capability handler as a
pure function from the environment, the agent's state and the request
envelope to the response envelope together with the list of outbound
completion calls it made.
-/

namespace GlobalTrade

/-- A Python/JSON-like runtime value: `None`, booleans, numbers (modelled as
rationals), strings, lists and string-keyed dictionaries. -/
inductive Val where
  | none : Val
  | bool (b : Bool) : Val
  | num (q : ℚ) : Val
  | str (s : String) : Val
  | list (xs : List Val) : Val
  | dict (xs : List (String × Val)) : Val

/-- A Python dictionary with string keys. -/
abbrev Obj := List (String × Val)

/-- Lookup of a key in a dictionary, `d.get(k)` returning `Option`. -/
def dictGet? (d : Obj) (k : String) : Option Val :=
  (d.find? (fun p => p.1 == k)).map (fun p => p.2)

/-- Python `d.get(k)`: `None` when the key is absent. -/
def pyGet (d : Obj) (k : String) : Val :=
  (dictGet? d k).getD Val.none

/-- Python `d.get(k, default)`. -/
def pyGetD (d : Obj) (k : String) (dflt : Val) : Val :=
  (dictGet? d k).getD dflt

/-- Python `k in d` on a dictionary. -/
def hasKey (d : Obj) (k : String) : Bool :=
  (dictGet? d k).isSome

/-- Subscripting `v[k]` on a value that is a dictionary (the handlers only
subscript values they know to be dictionaries with the key present). -/
def Val.getKey (v : Val) (k : String) : Val :=
  match v with
  | .dict d => pyGet d k
  | _ => .none

/-- Python truthiness: `None`, `False`, zero, the empty string, the empty
list and the empty dictionary are falsy; everything else is truthy. -/
def truthy : Val → Bool
  | .none => false
  | .bool b => b
  | .num q => decide (q ≠ 0)
  | .str s => !s.isEmpty
  | .list xs => !xs.isEmpty
  | .dict xs => !xs.isEmpty

mutual

/-- Does some string leaf of the value equal `needle`?  Used to check
whether a raw completion text survives verbatim anywhere in an envelope. -/
def Val.containsStr (needle : String) : Val → Bool
  | .none => false
  | .bool _ => false
  | .num _ => false
  | .str s => s == needle
  | .list xs => listContainsStr needle xs
  | .dict xs => objContainsStr needle xs

/-- `containsStr` over a list of values. -/
def listContainsStr (needle : String) : List Val → Bool
  | [] => false
  | v :: rest => Val.containsStr needle v || listContainsStr needle rest

/-- `containsStr` over a dictionary's values. -/
def objContainsStr (needle : String) : Obj → Bool
  | [] => false
  | kv :: rest => Val.containsStr needle kv.2 || objContainsStr needle rest

end

mutual

/-- Python `repr` of a value (approximation: numbers are rendered through
`Rat`'s `toString`; this only feeds log-style interpolations in error
messages, never a branch decision). -/
def Val.pyRepr : Val → String
  | .none => "None"
  | .bool b => cond b "True" "False"
  | .num q => toString q
  | .str s => "\x27" ++ s ++ "\x27"
  | .list xs => "[" ++ listPyRepr xs ++ "]"
  | .dict xs => "\x7b" ++ objPyRepr xs ++ "\x7d"

/-- `repr` of the elements of a list, comma separated. -/
def listPyRepr : List Val → String
  | [] => ""
  | [v] => v.pyRepr
  | v :: rest => v.pyRepr ++ ", " ++ listPyRepr rest

/-- `repr` of the entries of a dictionary, comma separated. -/
def objPyRepr : Obj → String
  | [] => ""
  | [kv] => "\x27" ++ kv.1 ++ "\x27: " ++ kv.2.pyRepr
  | kv :: rest => "\x27" ++ kv.1 ++ "\x27: " ++ kv.2.pyRepr ++ ", " ++ objPyRepr rest

end

/-- Python `str()` as used by f-string interpolation: a string renders as
itself, anything else as its `repr`. -/
def pyStr : Val → String
  | .str s => s
  | v => v.pyRepr

/-- Python `str.lower()` (ASCII case mapping, which covers every string
the source applies it to). -/
def pyLower (s : String) : String :=
  String.mk (s.data.map Char.toLower)

/-- Python `str.strip()`: drop leading and trailing whitespace. -/
def pyStrip (s : String) : String :=
  String.mk (((s.data.dropWhile Char.isWhitespace).reverse.dropWhile Char.isWhitespace).reverse)

/-- Does the first list start with the second? -/
def startsWithChars : List Char → List Char → Bool
  | [], _ => true
  | _ :: _, [] => false
  | c :: cs, d :: ds => c == d && startsWithChars cs ds

/-- Does `sub` occur contiguously in the list? -/
def hasSubChars (sub : List Char) : List Char → Bool
  | [] => sub.isEmpty
  | c :: rest => startsWithChars sub (c :: rest) || hasSubChars sub rest

/-- Python `sub in s` on strings. -/
def strContains (s sub : String) : Bool :=
  hasSubChars sub.data s.data

/-- Replace every occurrence of the non-empty pattern `s0 :: srest` by
`repl`, scanning left to right as Python `str.replace` does. -/
def replaceChars (s0 : Char) (srest repl : List Char) : List Char → List Char
  | [] => []
  | c :: rest =>
      if startsWithChars (s0 :: srest) (c :: rest) then
        repl ++ replaceChars s0 srest repl (rest.drop srest.length)
      else
        c :: replaceChars s0 srest repl rest
termination_by l => l.length
decreasing_by
  · simp only [List.length_cons, List.length_drop]
    omega
  · simp

/-- Python `s.replace(sub, repl)` (the source only replaces a non-empty
pattern; an empty pattern is returned unchanged here). -/
def pyReplace (s sub repl : String) : String :=
  match sub.data with
  | [] => s
  | c :: cs => String.mk (replaceChars c cs repl.data s.data)

/-- Split a character list on a separator character, keeping empty parts,
as Python `s.split(\x22 \x22)` does. -/
def splitOnChar (sep : Char) : List Char → List (List Char)
  | [] => [[]]
  | c :: rest =>
      match splitOnChar sep rest with
      | [] => [[]]
      | w :: ws => if c == sep then [] :: w :: ws else (c :: w) :: ws

/-- Python `str.title()` for space-separated words: first letter of each
word upper-cased, the rest lower-cased. -/
def pyTitle (s : String) : String :=
  String.intercalate " " ((splitOnChar ' ' s.data).map (fun w =>
    match w with
    | [] => ""
    | c :: rest => String.mk (Char.toUpper c :: rest.map Char.toLower)))

/-- A role-tagged chat message sent to the completion client
(`{"role": ..., "content": ...}` in the source). -/
structure Msg where
  role : String
  content : String

/-- The ambient effects of a handler invocation: the stubbed completion
client (`call_openai_gpt`'s underlying API), the `json.loads` decoder
(`some` on valid JSON, `none` on a `JSONDecodeError`), and the value
`datetime.utcnow().isoformat()` returns during the invocation. -/
structure Env where
  gpt : List Msg → String
  loads : String → Option Val
  now : String

/-- `BaseAgent.call_openai_gpt`: forwards the messages to the client and
returns its text.  (The source catches API exceptions and returns an
`"Error: ..."` string; with the client stubbed as a total function that
sentinel path is part of the stub's behaviour.) -/
def call_openai_gpt (env : Env) (messages : List Msg) : String :=
  env.gpt messages

/-- `BaseAgent.validate_request`: every required field must be present and
truthy; a missing or falsy field causes rejection. -/
def validate_request (request_data : Obj) (required_fields : List String) : Bool :=
  required_fields.all (fun field =>
    match dictGet? request_data field with
    | Option.some v => truthy v
    | Option.none => false)

/-- `BaseAgent.format_error_response`. -/
def format_error_response (name now error_message : String) : Obj :=
  [("success", Val.bool false),
   ("error", Val.str error_message),
   ("agent", Val.str name),
   ("timestamp", Val.str now)]

/-- `BaseAgent.format_success_response`. -/
def format_success_response (name now : String) (data : Obj) : Obj :=
  [("success", Val.bool true),
   ("data", Val.dict data),
   ("agent", Val.str name),
   ("timestamp", Val.str now)]

/-! ### TranslationAgent (src/translation_agent.py) -/

/-- The instance state of a `TranslationAgent`: the `BaseAgent` fields set
in `BaseAgent.__init__` plus the language table set in
`TranslationAgent.__init__`. -/
structure TranslationAgent where
  name : String
  capabilities : List String
  created_at : String
  request_count : Nat
  supported_languages : List (String × String)

/-- The language codes and names mapping from `TranslationAgent.__init__`. -/
def supportedLanguagesInit : List (String × String) :=
  [("en", "English"), ("es", "Spanish"), ("fr", "French"), ("de", "German"),
   ("it", "Italian"), ("pt", "Portuguese"), ("ru", "Russian"), ("zh", "Chinese"),
   ("ja", "Japanese"), ("ko", "Korean"), ("ar", "Arabic"), ("hi", "Hindi"),
   ("id", "Indonesian"), ("th", "Thai"), ("vi", "Vietnamese"), ("tr", "Turkish"),
   ("pl", "Polish"), ("nl", "Dutch"), ("sv", "Swedish"), ("da", "Danish")]

/-- `TranslationAgent.__init__` (the nondeterministic `datetime.utcnow()`
is a parameter). -/
def TranslationAgent.init (created_at : String) : TranslationAgent :=
  { name := "TranslationAgent"
    capabilities := ["text_translation", "voice_translation", "cultural_context", "business_etiquette"]
    created_at := created_at
    request_count := 0
    supported_languages := supportedLanguagesInit }

/-- `BaseAgent.log_request` as it acts on a `TranslationAgent`: the only
assignment to instance state is `self.request_count += 1`. -/
def TranslationAgent.log_request (ag : TranslationAgent) : TranslationAgent :=
  { ag with request_count := ag.request_count + 1 }

/-- `self.supported_languages.get(code)` / `code in self.supported_languages`. -/
def langLookup (langs : List (String × String)) (code : String) : Option String :=
  (langs.find? (fun p => p.1 == code)).map (fun p => p.2)

/-- The `translation_prompt` f-string of `_translate_text`. -/
def translation_prompt (langName : String) (context source_language text : Val) : String :=
  "\n            Translate the following text to " ++ langName ++ ".\n            \n            Context: "
  ++ pyStr context ++ " (This helps determine the appropriate tone and terminology)\n            Source language: "
  ++ (match source_language with
      | .str "auto" => "auto-detect"
      | v => pyStr v)
  ++ "\n            \n            Text to translate: \"" ++ pyStr text
  ++ "\"\n            \n            Requirements:\n            1. Maintain the original meaning and tone\n            2. Use appropriate business/professional language if context is business\n            3. Consider cultural nuances\n            4. Preserve any technical terms appropriately\n            5. Only return the translated text, no explanations\n            \n            Translation:\n            "

/-- The `detection_prompt` f-string of `_detect_language_internal`. -/
def detection_prompt (text : Val) : String :=
  "\n        Detect the language of the following text and return only the ISO 639-1 language code (e.g., \x27en\x27 for English, \x27es\x27 for Spanish, \x27fr\x27 for French, etc.).\n        \n        Text: \""
  ++ pyStr text ++ "\"\n        \n        Language code:\n        "

/-- `TranslationAgent._detect_language_internal`: asks the model for a
language code, normalises it with `.strip().lower()`, and falls back to
`"en"` when the code is not in the supported table.  Returns the detected
code together with the outbound completion calls made. -/
def detect_language_internal (env : Env) (ag : TranslationAgent) (text : Val) :
    String × List (List Msg) :=
  let messages : List Msg :=
    [{ role := "system",
       content := "You are a language detection expert. Return only the ISO 639-1 language code, nothing else." },
     { role := "user", content := detection_prompt text }]
  let detected := call_openai_gpt env messages
  let detected_code := pyLower (pyStrip detected)
  if (langLookup ag.supported_languages detected_code).isSome then
    (detected_code, [messages])
  else
    ("en", [messages])

/-- `TranslationAgent._translate_text`.  Returns the response envelope and
the outbound completion calls of the invocation.  (The `except` arm of the
source is unreachable here: with the client and decoder total, nothing in
the `try` body raises.) -/
def translate_text_h (env : Env) (ag : TranslationAgent) (request_data : Obj) :
    Obj × List (List Msg) :=
  if !(validate_request request_data ["text", "target_language"]) then
    (format_error_response ag.name env.now "Missing required fields for text translation", [])
  else
    let text := pyGet request_data "text"
    let target_language := pyGet request_data "target_language"
    let source_language := pyGetD request_data "source_language" (Val.str "auto")
    let context := pyGetD request_data "context" (Val.str "general")
    match target_language with
    | .str tl =>
      match langLookup ag.supported_languages tl with
      | Option.none =>
          (format_error_response ag.name env.now ("Unsupported target language: " ++ pyStr target_language), [])
      | Option.some langName =>
          let messages : List Msg :=
            [{ role := "system",
               content := "You are a professional translator with expertise in business and cultural communication. Provide accurate, contextually appropriate translations." },
             { role := "user", content := translation_prompt langName context source_language text }]
          let translated_text := call_openai_gpt env messages
          let detRes :=
            match source_language with
            | .str "auto" =>
                let r := detect_language_internal env ag text
                (Val.str r.1, r.2)
            | v => (v, ([] : List (List Msg)))
          (format_success_response ag.name env.now
            [("original_text", text),
             ("translated_text", Val.str translated_text),
             ("source_language", detRes.1),
             ("target_language", target_language),
             ("context", context),
             ("confidence", Val.num (95 / 100))],
           [messages] ++ detRes.2)
    | v =>
        (format_error_response ag.name env.now ("Unsupported target language: " ++ pyStr v), [])

/-- One result entry of the `_batch_translate` loop, from the element's
index, original text and the single-text handler's envelope: a successful
element records its translated text, a failed element keeps the original
text as its translated value and records the error. -/
def batch_entry (i : ℕ) (text : Val) (r : Obj) : Val :=
  if truthy (pyGet r "success") then
    Val.dict
      [("index", Val.num (i : ℚ)),
       ("original", text),
       ("translated", (pyGet r "data").getKey "translated_text"),
       ("success", Val.bool true)]
  else
    Val.dict
      [("index", Val.num (i : ℚ)),
       ("original", text),
       ("translated", text),
       ("success", Val.bool false),
       ("error", pyGet r "error")]

/-- The loop body of `_batch_translate`: per element, build a single-text
translation request, invoke `_translate_text`, and record a result entry.
(The `except` arm of the source loop is unreachable: `_translate_text` is
total here.)  Returns the entries in input order plus the outbound calls. -/
def batch_loop (env : Env) (ag : TranslationAgent)
    (target_language source_language context : Val) :
    Nat → List Val → List Val × List (List Msg)
  | _, [] => ([], [])
  | i, text :: rest =>
      let translation_request : Obj :=
        [("text", text),
         ("target_language", target_language),
         ("source_language", source_language),
         ("context", context)]
      let res := translate_text_h env ag translation_request
      let entry : Val := batch_entry i text res.1
      let restRes := batch_loop env ag target_language source_language context (i + 1) rest
      (entry :: restRes.1, res.2 ++ restRes.2)

/-- `TranslationAgent._batch_translate`. -/
def batch_translate_h (env : Env) (ag : TranslationAgent) (request_data : Obj) :
    Obj × List (List Msg) :=
  if !(validate_request request_data ["texts", "target_language"]) then
    (format_error_response ag.name env.now "Missing required fields for batch translation", [])
  else
    let texts := pyGet request_data "texts"
    let target_language := pyGet request_data "target_language"
    let source_language := pyGetD request_data "source_language" (Val.str "auto")
    match texts with
    | .list textList =>
        let loopRes := batch_loop env ag target_language source_language
          (pyGetD request_data "context" (Val.str "general")) 0 textList
        let translations := loopRes.1
        let successful_translations := translations.countP (fun t => truthy (t.getKey "success"))
        (format_success_response ag.name env.now
          [("translations", Val.list translations),
           ("total_texts", Val.num (textList.length : ℚ)),
           ("successful_translations", Val.num (successful_translations : ℚ)),
           ("target_language", target_language)],
         loopRes.2)
    | _ => (format_error_response ag.name env.now "Texts must be a list", [])

/-- The `context_prompt` f-string of `_provide_cultural_context`. -/
def cultural_context_prompt (country business_context communication_type : Val) : String :=
  "\n        Provide cultural context and communication guidelines for doing business in "
  ++ pyStr country ++ ".\n        \n        Business context: " ++ pyStr business_context
  ++ "\n        Communication type: " ++ pyStr communication_type
  ++ "\n        \n        Include information about:\n        1. Communication style (direct vs indirect)\n        2. Business hierarchy and respect\n        3. Time and punctuality expectations\n        4. Gift-giving customs\n        5. Dining and entertainment etiquette\n        6. Negotiation style\n        7. Common greetings and phrases\n        8. Taboos and things to avoid\n        9. Preferred communication channels\n        10. Business card etiquette\n        \n        Return as JSON:\n        \x7b\n            \"communication_style\": \"description\",\n            \"hierarchy_respect\": \"guidelines\",\n            \"time_expectations\": \"punctuality norms\",\n            \"gift_customs\": \"gift-giving guidelines\",\n            \"dining_etiquette\": \"business dining norms\",\n            \"negotiation_style\": \"negotiation approach\",\n            \"greetings\": [\"common greeting phrases\"],\n            \"taboos\": [\"things to avoid\"],\n            \"preferred_channels\": [\"communication preferences\"],\n            \"business_card_etiquette\": \"business card guidelines\",\n            \"key_phrases\": \x7b\n                \"hello\": \"local greeting\",\n                \"thank_you\": \"local thank you\",\n                \"please\": \"local please\",\n                \"excuse_me\": \"local excuse me\"\n            \x7d,\n            \"tips\": [\"practical business tips\"]\n        \x7d\n        "

/-- The message list sent by `_provide_cultural_context` for a given
request. -/
def cultural_messages (request_data : Obj) : List Msg :=
  [{ role := "system",
     content := "You are a cultural business consultant with deep knowledge of international business practices and cultural norms." },
   { role := "user",
     content := cultural_context_prompt (pyGet request_data "country")
       (pyGetD request_data "business_context" (Val.str "general"))
       (pyGetD request_data "communication_type" (Val.str "email")) }]

/-- `TranslationAgent._provide_cultural_context`: strict JSON decode of the
completion with a fallback dictionary that carries the raw completion under
`"cultural_advice"`. -/
def provide_cultural_context_h (env : Env) (ag : TranslationAgent) (request_data : Obj) :
    Obj × List (List Msg) :=
  if !(validate_request request_data ["country"]) then
    (format_error_response ag.name env.now "Missing required fields for cultural context", [])
  else
    let country := pyGet request_data "country"
    let business_context := pyGetD request_data "business_context" (Val.str "general")
    let communication_type := pyGetD request_data "communication_type" (Val.str "email")
    let messages := cultural_messages request_data
    let ai_response := call_openai_gpt env messages
    let cultural_data :=
      match env.loads ai_response with
      | Option.some v => v
      | Option.none =>
          Val.dict
            [("cultural_advice", Val.str ai_response),
             ("country", country),
             ("tips", Val.list [Val.str "Research local customs", Val.str "Be respectful of cultural differences"])]
    (format_success_response ag.name env.now
      [("cultural_context", cultural_data),
       ("country", country),
       ("business_context", business_context),
       ("communication_type", communication_type)],
     [messages])

/-- The `etiquette_prompt` f-string of `_provide_business_etiquette`. -/
def etiquette_prompt (situation country : Val) : String :=
  "\n        Provide specific business etiquette guidelines for " ++ pyStr situation
  ++ " in " ++ pyStr country
  ++ ".\n        \n        Include:\n        1. Appropriate dress code\n        2. Meeting preparation\n        3. Greeting protocols\n        4. Conversation topics (appropriate and inappropriate)\n        5. Body language considerations\n        6. Gift-giving if applicable\n        7. Follow-up expectations\n        8. Common mistakes to avoid\n        \n        Return as JSON:\n        \x7b\n            \"dress_code\": \"appropriate attire\",\n            \"preparation\": [\"preparation steps\"],\n            \"greeting_protocol\": \"how to greet properly\",\n            \"appropriate_topics\": [\"good conversation topics\"],\n            \"topics_to_avoid\": [\"topics to avoid\"],\n            \"body_language\": [\"body language tips\"],\n            \"gift_giving\": \"gift guidelines if applicable\",\n            \"follow_up\": \"follow-up expectations\",\n            \"common_mistakes\": [\"mistakes to avoid\"],\n            \"success_tips\": [\"tips for success\"]\n        \x7d\n        "

/-- The message list sent by `_provide_business_etiquette` for a given
request. -/
def etiquette_messages (request_data : Obj) : List Msg :=
  [{ role := "system",
     content := "You are a business etiquette expert with extensive knowledge of international business protocols." },
   { role := "user",
     content := etiquette_prompt (pyGet request_data "situation") (pyGet request_data "country") }]

/-- `TranslationAgent._provide_business_etiquette`: fallback carries the raw
completion under `"etiquette_advice"`. -/
def provide_business_etiquette_h (env : Env) (ag : TranslationAgent) (request_data : Obj) :
    Obj × List (List Msg) :=
  if !(validate_request request_data ["country", "situation"]) then
    (format_error_response ag.name env.now "Missing required fields for business etiquette", [])
  else
    let country := pyGet request_data "country"
    let situation := pyGet request_data "situation"
    let messages := etiquette_messages request_data
    let ai_response := call_openai_gpt env messages
    let etiquette_data :=
      match env.loads ai_response with
      | Option.some v => v
      | Option.none =>
          Val.dict
            [("etiquette_advice", Val.str ai_response),
             ("general_tips", Val.list [Val.str "Be respectful", Val.str "Research local customs", Val.str "Be punctual"])]
    (format_success_response ag.name env.now
      [("business_etiquette", etiquette_data),
       ("country", country),
       ("situation", situation)],
     [messages])

/-- `TranslationAgent._detect_language`. -/
def detect_language_h (env : Env) (ag : TranslationAgent) (request_data : Obj) :
    Obj × List (List Msg) :=
  if !(validate_request request_data ["text"]) then
    (format_error_response ag.name env.now "Missing required fields for language detection", [])
  else
    let text := pyGet request_data "text"
    let detRes := detect_language_internal env ag text
    (format_success_response ag.name env.now
      [("text", text),
       ("detected_language", Val.str detRes.1),
       ("language_name", Val.str ((langLookup ag.supported_languages detRes.1).getD "Unknown")),
       ("confidence", Val.num (9 / 10))],
     detRes.2)

/-- `TranslationAgent.process_request`: logs the request (incrementing the
instance's `request_count`), dispatches on the `type` field, and returns
the handler's envelope.  The result carries the post-invocation agent state
and the outbound completion calls. -/
def TranslationAgent.process_request (env : Env) (ag : TranslationAgent) (request_data : Obj) :
    Obj × TranslationAgent × List (List Msg) :=
  let ag := TranslationAgent.log_request ag
  let res :=
    match pyGet request_data "type" with
    | .str "text_translation" => translate_text_h env ag request_data
    | .str "batch_translation" => batch_translate_h env ag request_data
    | .str "cultural_context" => provide_cultural_context_h env ag request_data
    | .str "business_etiquette" => provide_business_etiquette_h env ag request_data
    | .str "language_detection" => detect_language_h env ag request_data
    | t => (format_error_response ag.name env.now ("Unknown request type: " ++ pyStr t), [])
  (res.1, ag, res.2)

/-! ### MarketResearchAgent (src/market_research_agent.py) -/

/-- `v.get(k, dflt)` on a value expected to be a dictionary (the handlers
only call it on elements intended to be dictionaries; a non-dictionary is
given the default). -/
def Val.getD (v : Val) (k : String) (dflt : Val) : Val :=
  match v with
  | .dict d => pyGetD d k dflt
  | _ => dflt

/-- Python `d[k] = v`: update in place when the key exists, else append
(insertion order preserved). -/
def setKey (d : Obj) (k : String) (v : Val) : Obj :=
  if hasKey d k then
    d.map (fun kv => if kv.1 == k then (k, v) else kv)
  else
    d ++ [(k, v)]

/-- The instance state of a `MarketResearchAgent` (the `BaseAgent` fields). -/
structure MarketResearchAgent where
  name : String
  capabilities : List String
  created_at : String
  request_count : Nat

/-- `MarketResearchAgent.__init__`. -/
def MarketResearchAgent.init (created_at : String) : MarketResearchAgent :=
  { name := "MarketResearchAgent"
    capabilities := ["market_analysis", "contact_discovery", "trend_analysis", "opportunity_matching"]
    created_at := created_at
    request_count := 0 }

/-- `BaseAgent.log_request` acting on a `MarketResearchAgent`. -/
def MarketResearchAgent.log_request (ag : MarketResearchAgent) : MarketResearchAgent :=
  { ag with request_count := ag.request_count + 1 }

/-- The `analysis_prompt` f-string of `_analyze_market`. -/
def analysis_prompt (product_name target_country product_category : Val) : String :=
  "\n        Analyze the market for " ++ pyStr product_name ++ " in " ++ pyStr target_country
  ++ ". Consider:\n        1. Market size and growth potential\n        2. Key competitors and market share\n        3. Consumer preferences and trends\n        4. Regulatory environment\n        5. Distribution channels\n        6. Pricing strategies\n        7. Market entry barriers\n        8. Cultural considerations\n        \n        Product Category: "
  ++ pyStr product_category
  ++ "\n        \n        Provide a comprehensive market analysis in JSON format with the following structure:\n        \x7b\n            \"market_size\": \x7b\"value\": \"amount\", \"currency\": \"USD\", \"year\": \"2024\"\x7d,\n            \"growth_rate\": \"percentage\",\n            \"market_maturity\": \"emerging/growing/mature/declining\",\n            \"competition_level\": \"low/medium/high\",\n            \"key_competitors\": [\"competitor1\", \"competitor2\"],\n            \"consumer_preferences\": [\"preference1\", \"preference2\"],\n            \"regulatory_requirements\": [\"requirement1\", \"requirement2\"],\n            \"distribution_channels\": [\"channel1\", \"channel2\"],\n            \"price_range\": \x7b\"min\": amount, \"max\": amount, \"currency\": \"USD\"\x7d,\n            \"market_entry_barriers\": [\"barrier1\", \"barrier2\"],\n            \"cultural_considerations\": [\"consideration1\", \"consideration2\"],\n            \"opportunities\": [\"opportunity1\", \"opportunity2\"],\n            \"threats\": [\"threat1\", \"threat2\"],\n            \"recommendations\": [\"recommendation1\", \"recommendation2\"]\n        \x7d\n        "

/-- The message list sent by `_analyze_market` for a given request. -/
def analyze_market_messages (request_data : Obj) : List Msg :=
  [{ role := "system",
     content := "You are a market research expert with deep knowledge of international trade and market analysis." },
   { role := "user",
     content := analysis_prompt (pyGet request_data "product_name")
       (pyGet request_data "target_country")
       (pyGetD request_data "product_category" (Val.str "General")) }]

/-- `MarketResearchAgent._analyze_market`: strict JSON decode of the
completion; the fallback dictionary carries the raw completion under
`"analysis_text"`. -/
def analyze_market_h (env : Env) (ag : MarketResearchAgent) (request_data : Obj) :
    Obj × List (List Msg) :=
  if !(validate_request request_data ["product_name", "target_country"]) then
    (format_error_response ag.name env.now "Missing required fields for market analysis", [])
  else
    let product_name := pyGet request_data "product_name"
    let target_country := pyGet request_data "target_country"
    -- `product_category` is bound in the source and consumed only by the
    -- prompt, which lives in `analyze_market_messages`.
    let messages := analyze_market_messages request_data
    let ai_response := call_openai_gpt env messages
    let market_data :=
      match env.loads ai_response with
      | Option.some v => v
      | Option.none =>
          Val.dict
            [("analysis_text", Val.str ai_response),
             ("market_size", Val.dict
               [("value", Val.str "Data not available"), ("currency", Val.str "USD"), ("year", Val.str "2024")]),
             ("growth_rate", Val.str "To be determined"),
             ("recommendations", Val.list
               [Val.str "Conduct detailed market survey", Val.str "Engage local partners"])]
    (format_success_response ag.name env.now
      [("market_analysis", market_data),
       ("product", product_name),
       ("target_country", target_country),
       ("analysis_date", Val.str ag.created_at)],
     [messages])

/-- The `contact_prompt` f-string of `_discover_contacts`. -/
def contact_prompt (contact_type industry country company_size : Val) : String :=
  "\n        Generate a list of 5-10 realistic business contacts for " ++ pyStr contact_type
  ++ "s in the " ++ pyStr industry ++ " industry in " ++ pyStr country
  ++ ".\n        \n        For each contact, provide:\n        - Company name (realistic for the country)\n        - Contact person name (appropriate for the country)\n        - Position/Title\n        - Email address (realistic format)\n        - Phone number (correct format for the country)\n        - Company address (realistic address format)\n        - Company size: "
  ++ pyStr company_size
  ++ "\n        - Website URL\n        - Brief company description\n        - Verification status (verified/unverified)\n        \n        Return as JSON array with this structure:\n        [\x7b\n            \"company_name\": \"string\",\n            \"contact_person\": \"string\",\n            \"position\": \"string\",\n            \"email\": \"string\",\n            \"phone\": \"string\",\n            \"address\": \"string\",\n            \"company_size\": \"string\",\n            \"website\": \"string\",\n            \"description\": \"string\",\n            \"verified\": boolean,\n            \"industry\": \"string\",\n            \"country\": \"string\"\n        \x7d]\n        "

/-- `MarketResearchAgent._generate_mock_contacts`: the deterministic mock
fallback used when JSON decoding of the completion fails. -/
def generate_mock_contacts (country industry contact_type : String) : List Val :=
  if pyLower country == "italy" && strContains (pyLower industry) "coffee" then
    [Val.dict
      [("company_name", Val.str "Milano Coffee Roasters"),
       ("contact_person", Val.str "Marco Rossi"),
       ("position", Val.str "Procurement Manager"),
       ("email", Val.str "marco.rossi@milanocoffee.it"),
       ("phone", Val.str "+39 02 1234567"),
       ("address", Val.str "Via Roma 123, 20121 Milano, Italy"),
       ("company_size", Val.str "50-100 employees"),
       ("website", Val.str "https://milanocoffee.it"),
       ("description", Val.str "Premium coffee roaster specializing in single-origin beans"),
       ("verified", Val.bool true),
       ("industry", Val.str industry),
       ("country", Val.str country)],
     Val.dict
      [("company_name", Val.str "Italian Coffee Distributors"),
       ("contact_person", Val.str "Giuseppe Bianchi"),
       ("position", Val.str "Import Director"),
       ("email", Val.str "g.bianchi@italiancoffee.com"),
       ("phone", Val.str "+39 06 7654321"),
       ("address", Val.str "Via Nazionale 456, 00100 Roma, Italy"),
       ("company_size", Val.str "100-500 employees"),
       ("website", Val.str "https://italiancoffee.com"),
       ("description", Val.str "Leading coffee distributor serving Italian market"),
       ("verified", Val.bool true),
       ("industry", Val.str industry),
       ("country", Val.str country)]]
  else
    [Val.dict
      [("company_name", Val.str ("Global " ++ industry ++ " Corp")),
       ("contact_person", Val.str "John Smith"),
       ("position", Val.str (pyTitle contact_type ++ " Manager")),
       ("email", Val.str ("j.smith@global" ++ (pyReplace (pyLower industry) " " "") ++ ".com")),
       ("phone", Val.str "+1 555 123 4567"),
       ("address", Val.str ("123 Business St, " ++ country)),
       ("company_size", Val.str "100-500 employees"),
       ("website", Val.str ("https://global" ++ (pyReplace (pyLower industry) " " "") ++ ".com")),
       ("description", Val.str ("Leading " ++ industry ++ " company in " ++ country)),
       ("verified", Val.bool true),
       ("industry", Val.str industry),
       ("country", Val.str country)]]

/-- Python `len` on sized values (`len` of anything else raises and is
outside the modelled executions). -/
def pyLen : Val → Nat
  | .list xs => xs.length
  | .dict d => d.length
  | .str s => s.length
  | _ => 0

/-- The message list sent by `_discover_contacts` for a given request. -/
def contact_messages (request_data : Obj) : List Msg :=
  [{ role := "system",
     content := "You are a business intelligence expert with access to global business directories." },
   { role := "user",
     content := contact_prompt (pyGetD request_data "contact_type" (Val.str "buyer"))
       (pyGet request_data "industry") (pyGet request_data "country")
       (pyGetD request_data "company_size" (Val.str "any")) }]

/-- `MarketResearchAgent._discover_contacts`: on a `JSONDecodeError` the
decoded contacts are replaced by `_generate_mock_contacts` output — the raw
completion text is discarded, not preserved.  (The `except Exception` arm
returning mock data with a `"note"` field is unreachable here: the stubbed
client and decoder are total.)  The mock generator applies `str.lower` to
`country`/`industry`, so this model takes the string forms of the already
validated fields. -/
def discover_contacts_h (env : Env) (ag : MarketResearchAgent) (request_data : Obj) :
    Obj × List (List Msg) :=
  if !(validate_request request_data ["country", "industry"]) then
    (format_error_response ag.name env.now "Missing required fields for contact discovery", [])
  else
    let country := pyGet request_data "country"
    let industry := pyGet request_data "industry"
    let company_size := pyGetD request_data "company_size" (Val.str "any")
    let contact_type := pyGetD request_data "contact_type" (Val.str "buyer")
    let messages := contact_messages request_data
    let ai_response := call_openai_gpt env messages
    let contacts :=
      match env.loads ai_response with
      | Option.some v => v
      | Option.none =>
          Val.list (generate_mock_contacts (pyStr country) (pyStr industry) (pyStr contact_type))
    (format_success_response ag.name env.now
      [("contacts", contacts),
       ("total_found", Val.num (pyLen contacts : ℚ)),
       ("search_criteria", Val.dict
         [("country", country),
          ("industry", industry),
          ("company_size", company_size),
          ("contact_type", contact_type)])],
     [messages])

/-- The `trends_prompt` f-string of `_analyze_trends`. -/
def trends_prompt (industry country timeframe : Val) : String :=
  "\n        Analyze current and emerging market trends for the " ++ pyStr industry
  ++ " industry in " ++ pyStr country ++ " for the period " ++ pyStr timeframe
  ++ ".\n        \n        Include:\n        1. Consumer behavior trends\n        2. Technology adoption trends\n        3. Regulatory changes\n        4. Economic factors\n        5. Competitive landscape changes\n        6. Supply chain trends\n        7. Sustainability trends\n        8. Digital transformation trends\n        \n        Return as JSON with this structure:\n        \x7b\n            \"trends\": [\n                \x7b\n                    \"title\": \"trend name\",\n                    \"description\": \"detailed description\",\n                    \"impact\": \"high/medium/low\",\n                    \"timeframe\": \"when this trend is relevant\",\n                    \"category\": \"consumer/technology/regulatory/economic/competitive/supply_chain/sustainability/digital\"\n                \x7d\n            ],\n            \"market_outlook\": \"positive/neutral/negative\",\n            \"key_opportunities\": [\"opportunity1\", \"opportunity2\"],\n            \"potential_risks\": [\"risk1\", \"risk2\"],\n            \"recommendations\": [\"recommendation1\", \"recommendation2\"]\n        \x7d\n        "

/-- The message list sent by `_analyze_trends` for a given request. -/
def trends_messages (request_data : Obj) : List Msg :=
  [{ role := "system",
     content := "You are a market trends analyst with expertise in global markets and industry forecasting." },
   { role := "user",
     content := trends_prompt (pyGetD request_data "industry" (Val.str "General"))
       (pyGet request_data "country")
       (pyGetD request_data "timeframe" (Val.str "2024-2025")) }]

/-- `MarketResearchAgent._analyze_trends`: fallback carries the raw
completion under `"trends_text"`. -/
def analyze_trends_h (env : Env) (ag : MarketResearchAgent) (request_data : Obj) :
    Obj × List (List Msg) :=
  if !(validate_request request_data ["country"]) then
    (format_error_response ag.name env.now "Missing required fields for trend analysis", [])
  else
    let country := pyGet request_data "country"
    let industry := pyGetD request_data "industry" (Val.str "General")
    let timeframe := pyGetD request_data "timeframe" (Val.str "2024-2025")
    let messages := trends_messages request_data
    let ai_response := call_openai_gpt env messages
    let trends_data :=
      match env.loads ai_response with
      | Option.some v => v
      | Option.none =>
          Val.dict
            [("trends_text", Val.str ai_response),
             ("market_outlook", Val.str "neutral"),
             ("recommendations", Val.list
               [Val.str "Conduct detailed trend analysis", Val.str "Monitor market developments"])]
    (format_success_response ag.name env.now
      [("trends_analysis", trends_data),
       ("country", country),
       ("industry", industry),
       ("timeframe", timeframe)],
     [messages])

/-- Python `", ".join` over the elements of a list value (joining a
non-list is outside the modelled executions). -/
def joinComma : Val → String
  | .list xs => String.intercalate ", " (xs.map pyStr)
  | v => pyStr v

/-- The `opportunity_prompt` f-string of `_match_opportunities`. -/
def opportunity_prompt (product_name product_category target_countries : Val) : String :=
  "\n            Find business opportunities for " ++ pyStr product_name
  ++ " (category: " ++ pyStr product_category
  ++ ") in global markets.\n            \n            Consider:\n            1. Market demand\n            2. Competition level\n            3. Entry barriers\n            4. Potential revenue\n            5. Cultural fit\n            6. Regulatory requirements\n            \n            Target countries: "
  ++ (if truthy target_countries then joinComma target_countries else "Global")
  ++ "\n            \n            Return top 3 opportunities as JSON:\n            [\x7b\n                \"title\": \"opportunity title\",\n                \"description\": \"detailed description\",\n                \"market\": \"country/region\",\n                \"potential_value\": \"revenue estimate\",\n                \"confidence\": 85,\n                \"requirements\": [\"requirement1\", \"requirement2\"],\n                \"next_steps\": [\"step1\", \"step2\"],\n                \"timeline\": \"estimated timeline\",\n                \"risk_level\": \"low/medium/high\"\n            \x7d]\n            "

/-- The per-element tagging loop of `_match_opportunities`: each decoded
opportunity gets `opp[\x27matched_product\x27] = product` and is appended.
A non-dictionary element raises a `TypeError` in the source, which the
enclosing `except Exception` swallows after the earlier elements were
already appended; the boolean records whether iteration completed. -/
def attach_opportunities (product : Val) : List Val → List Val × Bool
  | [] => ([], true)
  | .dict d :: rest =>
      let r := attach_opportunities product rest
      (Val.dict (setKey d "matched_product" product) :: r.1, r.2)
  | _ :: _ => ([], false)

/-- The fallback opportunity appended when JSON decoding fails for a
product in `_match_opportunities` — the raw completion is discarded. -/
def fallback_opportunity (product_name : Val) (product : Val) : Val :=
  Val.dict
    [("title", Val.str ("Export Opportunity for " ++ pyStr product_name)),
     ("description", Val.str ("Potential market opportunity for " ++ pyStr product_name ++ " in international markets")),
     ("market", Val.str "Global"),
     ("potential_value", Val.str "To be determined"),
     ("confidence", Val.num 70),
     ("matched_product", product),
     ("requirements", Val.list [Val.str "Market research", Val.str "Regulatory compliance"]),
     ("next_steps", Val.list [Val.str "Contact potential buyers", Val.str "Prepare samples"])]

/-- The message list sent by `_match_opportunities` for one product. -/
def opportunity_messages (target_countries product : Val) : List Msg :=
  [{ role := "system",
     content := "You are a business opportunity analyst specializing in international trade." },
   { role := "user",
     content := opportunity_prompt (product.getD "name" (Val.str "Unknown Product"))
       (product.getD "category" (Val.str "General")) target_countries }]

/-- The product loop of `_match_opportunities`. -/
def opportunities_loop (env : Env) (target_countries : Val) :
    List Val → List Val × List (List Msg)
  | [] => ([], [])
  | product :: rest =>
      let product_name := product.getD "name" (Val.str "Unknown Product")
      let messages := opportunity_messages target_countries product
      let ai_response := call_openai_gpt env messages
      let appended :=
        match env.loads ai_response with
        | Option.some (.list opps) => (attach_opportunities product opps).1
        | Option.some _ => []
        | Option.none => [fallback_opportunity product_name product]
      let r := opportunities_loop env target_countries rest
      (appended ++ r.1, messages :: r.2)

/-- `MarketResearchAgent._match_opportunities`: iterates the products,
aggregating the per-product opportunities (JSON-decode failures contribute
a generic fallback opportunity without the raw completion text). -/
def match_opportunities_h (env : Env) (ag : MarketResearchAgent) (request_data : Obj) :
    Obj × List (List Msg) :=
  if !(validate_request request_data ["products"]) then
    (format_error_response ag.name env.now "Missing required fields for opportunity matching", [])
  else
    let products := pyGet request_data "products"
    let target_countries := pyGetD request_data "target_countries" (Val.list [])
    match products with
    | .list productList =>
        let r := opportunities_loop env target_countries productList
        (format_success_response ag.name env.now
          [("opportunities", Val.list r.1),
           ("total_found", Val.num (r.1.length : ℚ)),
           ("products_analyzed", Val.num (productList.length : ℚ))],
         r.2)
    | _ =>
        -- Iterating a non-list `products` raises in the source and is
        -- outside the modelled executions; validation has already ensured
        -- the field is present and truthy.
        (format_error_response ag.name env.now "Missing required fields for opportunity matching", [])

/-- `MarketResearchAgent.process_request`. -/
def MarketResearchAgent.process_request (env : Env) (ag : MarketResearchAgent) (request_data : Obj) :
    Obj × MarketResearchAgent × List (List Msg) :=
  let ag := MarketResearchAgent.log_request ag
  let res :=
    match pyGet request_data "type" with
    | .str "market_analysis" => analyze_market_h env ag request_data
    | .str "contact_discovery" => discover_contacts_h env ag request_data
    | .str "trend_analysis" => analyze_trends_h env ag request_data
    | .str "opportunity_matching" => match_opportunities_h env ag request_data
    | t => (format_error_response ag.name env.now ("Unknown request type: " ++ pyStr t), [])
  (res.1, ag, res.2)

/-! ### BusinessIntelligenceAgent (src/business_intelligence_agent.py) -/

/-- The instance state of a `BusinessIntelligenceAgent`. -/
structure BusinessIntelligenceAgent where
  name : String
  capabilities : List String
  created_at : String
  request_count : Nat

/-- `BusinessIntelligenceAgent.__init__`. -/
def BusinessIntelligenceAgent.init (created_at : String) : BusinessIntelligenceAgent :=
  { name := "BusinessIntelligenceAgent"
    capabilities := ["user_analytics", "performance_insights", "recommendations", "trend_prediction"]
    created_at := created_at
    request_count := 0 }

/-- `BaseAgent.log_request` acting on a `BusinessIntelligenceAgent`. -/
def BusinessIntelligenceAgent.log_request (ag : BusinessIntelligenceAgent) : BusinessIntelligenceAgent :=
  { ag with request_count := ag.request_count + 1 }

/-- Numeric reading of a value as used by Python `sum` (a non-numeric,
non-boolean summand raises in the source and is outside the modelled
executions). -/
def asNum : Val → ℚ
  | .num q => q
  | .bool b => cond b 1 0
  | _ => 0

/-- The `analytics_prompt` f-string of `_analyze_user_performance`. -/
def analytics_prompt (time_period : Val) : String :=
  "\n        Generate business performance analytics for a user in an export business platform.\n        \n        Time period: "
  ++ pyStr time_period
  ++ "\n        \n        Create realistic analytics including:\n        1. Profile completion score\n        2. Product listing performance\n        3. Message response rate\n        4. Market research activity\n        5. Business connections made\n        6. Engagement metrics\n        7. Areas for improvement\n        8. Success indicators\n        \n        Return as JSON:\n        \x7b\n            \"performance_score\": 85,\n            \"profile_completion\": 90,\n            \"product_views\": 1250,\n            \"message_response_rate\": 85,\n            \"connections_made\": 15,\n            \"market_research_requests\": 5,\n            \"engagement_score\": 78,\n            \"strengths\": [\"strength1\", \"strength2\"],\n            \"improvement_areas\": [\"area1\", \"area2\"],\n            \"recommendations\": [\"recommendation1\", \"recommendation2\"],\n            \"trends\": \x7b\n                \"views_trend\": \"increasing\",\n                \"connections_trend\": \"stable\",\n                \"response_rate_trend\": \"improving\"\n            \x7d,\n            \"benchmarks\": \x7b\n                \"industry_average_views\": 800,\n                \"industry_average_response_rate\": 75,\n                \"industry_average_connections\": 10\n            \x7d\n        \x7d\n        "

/-- The message list sent by `_analyze_user_performance`. -/
def user_analytics_messages (request_data : Obj) : List Msg :=
  [{ role := "system",
     content := "You are a business analytics expert specializing in export business performance metrics." },
   { role := "user",
     content := analytics_prompt (pyGetD request_data "time_period" (Val.str "30_days")) }]

/-- `BusinessIntelligenceAgent._analyze_user_performance`: fallback carries
the raw completion under `"analysis_text"`. -/
def analyze_user_performance_h (env : Env) (ag : BusinessIntelligenceAgent) (request_data : Obj) :
    Obj × List (List Msg) :=
  if !(validate_request request_data ["user_id"]) then
    (format_error_response ag.name env.now "Missing required fields for user analytics", [])
  else
    let user_id := pyGet request_data "user_id"
    let time_period := pyGetD request_data "time_period" (Val.str "30_days")
    let messages := user_analytics_messages request_data
    let ai_response := call_openai_gpt env messages
    let analytics_data :=
      match env.loads ai_response with
      | Option.some v => v
      | Option.none =>
          Val.dict
            [("performance_score", Val.num 75),
             ("profile_completion", Val.num 80),
             ("recommendations", Val.list
               [Val.str "Complete your business profile", Val.str "Add more product photos",
                Val.str "Respond to messages faster"]),
             ("analysis_text", Val.str ai_response)]
    (format_success_response ag.name env.now
      [("user_analytics", analytics_data),
       ("user_id", user_id),
       ("time_period", time_period),
       ("generated_at", Val.str env.now)],
     [messages])

/-- The `insights_prompt` f-string of `_analyze_product_performance`. -/
def insights_prompt (product_name product_category : Val) : String :=
  "\n            Analyze the market performance and potential for " ++ pyStr product_name
  ++ " in the " ++ pyStr product_category
  ++ " category.\n            \n            Provide insights on:\n            1. Market demand level\n            2. Competition intensity\n            3. Price positioning\n            4. Target market suitability\n            5. Seasonal trends\n            6. Growth potential\n            7. Optimization recommendations\n            \n            Return as JSON:\n            \x7b\n                \"demand_level\": \"high/medium/low\",\n                \"competition_intensity\": \"high/medium/low\",\n                \"price_competitiveness\": \"competitive/above_market/below_market\",\n                \"target_markets\": [\"market1\", \"market2\"],\n                \"seasonal_trends\": \"description of seasonal patterns\",\n                \"growth_potential\": \"high/medium/low\",\n                \"performance_score\": 85,\n                \"optimization_tips\": [\"tip1\", \"tip2\"],\n                \"market_opportunities\": [\"opportunity1\", \"opportunity2\"],\n                \"risk_factors\": [\"risk1\", \"risk2\"]\n            \x7d\n            "

/-- The message list sent by `_analyze_product_performance` for one
product. -/
def product_insights_messages (product : Val) : List Msg :=
  [{ role := "system",
     content := "You are a product market analyst with expertise in international trade and product positioning." },
   { role := "user",
     content := insights_prompt (product.getD "name" (Val.str "Unknown Product"))
       (product.getD "category" (Val.str "General")) }]

/-- The product loop of `_analyze_product_performance`: a decoded
dictionary gets `insight_data[\x27product\x27] = product` and is appended; a
decoded non-dictionary raises on that assignment and the `except Exception`
arm swallows it (nothing appended); a `JSONDecodeError` appends a fallback
carrying the raw completion under `"analysis_text"`. -/
def product_insights_loop (env : Env) : List Val → List Val × List (List Msg)
  | [] => ([], [])
  | product :: rest =>
      let messages := product_insights_messages product
      let ai_response := call_openai_gpt env messages
      let appended :=
        match env.loads ai_response with
        | Option.some (.dict d) => [Val.dict (setKey d "product" product)]
        | Option.some _ => []
        | Option.none =>
            [Val.dict
              [("product", product),
               ("performance_score", Val.num 70),
               ("analysis_text", Val.str ai_response),
               ("optimization_tips", Val.list
                 [Val.str "Improve product description", Val.str "Add more images"])]]
      let r := product_insights_loop env rest
      (appended ++ r.1, messages :: r.2)

/-- `BusinessIntelligenceAgent._analyze_product_performance`. -/
def analyze_product_performance_h (env : Env) (ag : BusinessIntelligenceAgent) (request_data : Obj) :
    Obj × List (List Msg) :=
  if !(validate_request request_data ["products"]) then
    (format_error_response ag.name env.now "Missing required fields for product insights", [])
  else
    let products := pyGet request_data "products"
    match products with
    | .list productList =>
        let r := product_insights_loop env productList
        let product_insights := r.1
        (format_success_response ag.name env.now
          [("product_insights", Val.list product_insights),
           ("total_products_analyzed", Val.num (productList.length : ℚ)),
           ("overall_portfolio_score",
             Val.num (if product_insights.isEmpty then 0 else
               (product_insights.map (fun p => asNum (p.getD "performance_score" (Val.num 70)))).sum
                 / (product_insights.length : ℚ)))],
         r.2)
    | _ =>
        -- Iterating a non-list `products` raises in the source and is
        -- outside the modelled executions.
        (format_error_response ag.name env.now "Missing required fields for product insights", [])

/-- The `recommendations_prompt` f-string of
`_generate_market_recommendations`. -/
def recommendations_prompt (user_country : Val) (user_industry : Val) : String :=
  "\n        Generate personalized market expansion recommendations for a business from "
  ++ pyStr user_country ++ " in the " ++ pyStr user_industry
  ++ " industry.\n        \n        Consider:\n        1. Geographic expansion opportunities\n        2. Product diversification suggestions\n        3. Partnership opportunities\n        4. Digital marketing strategies\n        5. Trade show participation\n        6. Certification requirements\n        7. Funding opportunities\n        8. Risk mitigation strategies\n        \n        Return as JSON:\n        \x7b\n            \"priority_markets\": [\n                \x7b\n                    \"country\": \"country name\",\n                    \"opportunity_score\": 85,\n                    \"entry_difficulty\": \"easy/medium/hard\",\n                    \"potential_revenue\": \"revenue estimate\",\n                    \"key_requirements\": [\"requirement1\", \"requirement2\"],\n                    \"timeline\": \"estimated timeline\"\n                \x7d\n            ],\n            \"product_opportunities\": [\n                \x7b\n                    \"product_type\": \"product category\",\n                    \"market_demand\": \"high/medium/low\",\n                    \"competition_level\": \"low/medium/high\",\n                    \"investment_required\": \"amount estimate\"\n                \x7d\n            ],\n            \"strategic_recommendations\": [\n                \x7b\n                    \"category\": \"marketing/partnerships/certification/funding\",\n                    \"recommendation\": \"specific recommendation\",\n                    \"priority\": \"high/medium/low\",\n                    \"expected_impact\": \"impact description\",\n                    \"implementation_steps\": [\"step1\", \"step2\"]\n                \x7d\n            ],\n            \"risk_factors\": [\"risk1\", \"risk2\"],\n            \"success_metrics\": [\"metric1\", \"metric2\"]\n        \x7d\n        "

/-- The message list sent by `_generate_market_recommendations`. -/
def recommendations_messages (request_data : Obj) : List Msg :=
  [{ role := "system",
     content := "You are a strategic business consultant specializing in international market expansion and export business development." },
   { role := "user",
     content := recommendations_prompt
       ((pyGet request_data "user_profile").getD "country" (Val.str "Unknown"))
       (pyGetD request_data "industry" (Val.str "General")) }]

/-- `BusinessIntelligenceAgent._generate_market_recommendations`: fallback
carries the raw completion under `"recommendations_text"`. -/
def generate_market_recommendations_h (env : Env) (ag : BusinessIntelligenceAgent) (request_data : Obj) :
    Obj × List (List Msg) :=
  if !(validate_request request_data ["user_profile"]) then
    (format_error_response ag.name env.now "Missing required fields for market recommendations", [])
  else
    let user_profile := pyGet request_data "user_profile"
    let user_country := user_profile.getD "country" (Val.str "Unknown")
    let user_industry := pyGetD request_data "industry" (Val.str "General")
    let messages := recommendations_messages request_data
    let ai_response := call_openai_gpt env messages
    let recommendations_data :=
      match env.loads ai_response with
      | Option.some v => v
      | Option.none =>
          Val.dict
            [("recommendations_text", Val.str ai_response),
             ("priority_markets", Val.list
               [Val.dict [("country", Val.str "Global"), ("opportunity_score", Val.num 75)]]),
             ("strategic_recommendations", Val.list
               [Val.dict [("recommendation", Val.str "Conduct market research"), ("priority", Val.str "high")]])]
    (format_success_response ag.name env.now
      [("market_recommendations", recommendations_data),
       ("user_country", user_country),
       ("industry", user_industry)],
     [messages])

/-- The `competition_prompt` f-string of `_analyze_competition`. -/
def competition_prompt (industry target_market : Val) : String :=
  "\n        Analyze the competitive landscape for the " ++ pyStr industry
  ++ " industry in " ++ pyStr target_market
  ++ ".\n        \n        Include:\n        1. Key competitors and market share\n        2. Competitive advantages and weaknesses\n        3. Pricing strategies\n        4. Distribution channels\n        5. Marketing approaches\n        6. Innovation trends\n        7. Market gaps and opportunities\n        8. Competitive threats\n        \n        Return as JSON:\n        \x7b\n            \"market_leaders\": [\n                \x7b\n                    \"company\": \"company name\",\n                    \"market_share\": \"percentage\",\n                    \"strengths\": [\"strength1\", \"strength2\"],\n                    \"weaknesses\": [\"weakness1\", \"weakness2\"]\n                \x7d\n            ],\n            \"market_dynamics\": \x7b\n                \"competition_intensity\": \"high/medium/low\",\n                \"price_competition\": \"high/medium/low\",\n                \"innovation_rate\": \"high/medium/low\",\n                \"market_growth\": \"growing/stable/declining\"\n            \x7d,\n            \"opportunities\": [\n                \x7b\n                    \"opportunity\": \"market gap description\",\n                    \"potential\": \"high/medium/low\",\n                    \"requirements\": [\"requirement1\", \"requirement2\"]\n                \x7d\n            ],\n            \"threats\": [\"threat1\", \"threat2\"],\n            \"success_factors\": [\"factor1\", \"factor2\"],\n            \"recommendations\": [\"recommendation1\", \"recommendation2\"]\n        \x7d\n        "

/-- The message list sent by `_analyze_competition`. -/
def competition_messages (request_data : Obj) : List Msg :=
  [{ role := "system",
     content := "You are a competitive intelligence analyst with expertise in global market analysis." },
   { role := "user",
     content := competition_prompt (pyGet request_data "industry") (pyGet request_data "target_market") }]

/-- `BusinessIntelligenceAgent._analyze_competition`: fallback carries the
raw completion under `"analysis_text"`. -/
def analyze_competition_h (env : Env) (ag : BusinessIntelligenceAgent) (request_data : Obj) :
    Obj × List (List Msg) :=
  if !(validate_request request_data ["industry", "target_market"]) then
    (format_error_response ag.name env.now "Missing required fields for competitive analysis", [])
  else
    let industry := pyGet request_data "industry"
    let target_market := pyGet request_data "target_market"
    let messages := competition_messages request_data
    let ai_response := call_openai_gpt env messages
    let competition_data :=
      match env.loads ai_response with
      | Option.some v => v
      | Option.none =>
          Val.dict
            [("analysis_text", Val.str ai_response),
             ("market_dynamics", Val.dict [("competition_intensity", Val.str "medium")]),
             ("recommendations", Val.list [Val.str "Conduct detailed competitive research"])]
    (format_success_response ag.name env.now
      [("competitive_analysis", competition_data),
       ("industry", industry),
       ("target_market", target_market)],
     [messages])

/-- The `growth_prompt` f-string of `_identify_growth_opportunities`. -/
def growth_prompt (current_markets products : Val) : String :=
  "\n        Identify growth opportunities for a business with the following profile:\n        \n        Current markets: "
  ++ (if truthy current_markets then joinComma current_markets else "None specified")
  ++ "\n        Products: " ++ toString (pyLen products)
  ++ " products in portfolio\n        \n        Analyze opportunities in:\n        1. Market expansion (new geographic markets)\n        2. Product line extension\n        3. Value chain integration\n        4. Digital transformation\n        5. Strategic partnerships\n        6. Technology adoption\n        7. Sustainability initiatives\n        8. Customer segment expansion\n        \n        Return as JSON:\n        \x7b\n            \"growth_opportunities\": [\n                \x7b\n                    \"type\": \"market_expansion/product_extension/partnership/digital/sustainability\",\n                    \"title\": \"opportunity title\",\n                    \"description\": \"detailed description\",\n                    \"potential_impact\": \"high/medium/low\",\n                    \"investment_required\": \"low/medium/high\",\n                    \"timeline\": \"short/medium/long term\",\n                    \"success_probability\": 85,\n                    \"key_steps\": [\"step1\", \"step2\"],\n                    \"risks\": [\"risk1\", \"risk2\"],\n                    \"expected_roi\": \"roi estimate\"\n                \x7d\n            ],\n            \"priority_ranking\": [1, 2, 3],\n            \"resource_requirements\": \x7b\n                \"financial\": \"investment estimate\",\n                \"human\": \"staffing needs\",\n                \"technology\": \"tech requirements\",\n                \"time\": \"timeline estimate\"\n            \x7d,\n            \"success_metrics\": [\"metric1\", \"metric2\"]\n        \x7d\n        "

/-- The message list sent by `_identify_growth_opportunities`. -/
def growth_messages (request_data : Obj) : List Msg :=
  [{ role := "system",
     content := "You are a business growth strategist with expertise in international expansion and business development." },
   { role := "user",
     content := growth_prompt
       ((pyGet request_data "user_data").getD "current_markets" (Val.list []))
       ((pyGet request_data "user_data").getD "products" (Val.list [])) }]

/-- `BusinessIntelligenceAgent._identify_growth_opportunities`: fallback
carries the raw completion under `"growth_analysis"`. -/
def identify_growth_opportunities_h (env : Env) (ag : BusinessIntelligenceAgent) (request_data : Obj) :
    Obj × List (List Msg) :=
  if !(validate_request request_data ["user_data"]) then
    (format_error_response ag.name env.now "Missing required fields for growth opportunities", [])
  else
    let messages := growth_messages request_data
    let ai_response := call_openai_gpt env messages
    let growth_data :=
      match env.loads ai_response with
      | Option.some v => v
      | Option.none =>
          Val.dict
            [("growth_analysis", Val.str ai_response),
             ("growth_opportunities", Val.list
               [Val.dict
                 [("type", Val.str "market_expansion"),
                  ("title", Val.str "Explore new markets"),
                  ("potential_impact", Val.str "high"),
                  ("key_steps", Val.list [Val.str "Market research", Val.str "Local partnerships"])]])]
    (format_success_response ag.name env.now
      [("growth_opportunities", growth_data),
       ("analysis_date", Val.str env.now)],
     [messages])

/-- `BusinessIntelligenceAgent.process_request`. -/
def BusinessIntelligenceAgent.process_request (env : Env) (ag : BusinessIntelligenceAgent) (request_data : Obj) :
    Obj × BusinessIntelligenceAgent × List (List Msg) :=
  let ag := BusinessIntelligenceAgent.log_request ag
  let res :=
    match pyGet request_data "type" with
    | .str "user_analytics" => analyze_user_performance_h env ag request_data
    | .str "product_insights" => analyze_product_performance_h env ag request_data
    | .str "market_recommendations" => generate_market_recommendations_h env ag request_data
    | .str "competitive_analysis" => analyze_competition_h env ag request_data
    | .str "growth_opportunities" => identify_growth_opportunities_h env ag request_data
    | t => (format_error_response ag.name env.now ("Unknown request type: " ++ pyStr t), [])
  (res.1, ag, res.2)

/-! ### AgentOrchestrator (src/base_agent.py) -/

/-- A registered component as the orchestrator sees it: its
`process_request` either returns an envelope or raises (`Except.error`
carries `str(e)` of the unhandled exception). -/
structure Agent where
  process : Obj → Except String Obj

/-- The orchestrator's registry `self.agents` (a Python dict populated by
`register_agent`; keys are unique as in any dict). -/
abbrev Registry := List (String × Agent)

/-- `AgentOrchestrator.get_agent`: `self.agents.get(agent_name)`. -/
def get_agent (agents : Registry) (agent_name : String) : Option Agent :=
  (agents.find? (fun p => p.1 == agent_name)).map (fun p => p.2)

/-- `AgentOrchestrator.route_request`: unknown names produce an error
envelope listing the registered names; a raising handler is caught and
converted to an error envelope naming the agent and the exception text. -/
def route_request (agents : Registry) (agent_name : String) (request_data : Obj) : Obj :=
  match get_agent agents agent_name with
  | Option.none =>
      [("success", Val.bool false),
       ("error", Val.str ("Agent " ++ agent_name ++ " not found")),
       ("available_agents", Val.list (agents.map (fun p => Val.str p.1)))]
  | Option.some agent =>
      match agent.process request_data with
      | .ok result => result
      | .error e =>
          [("success", Val.bool false),
           ("error", Val.str ("Agent " ++ agent_name ++ " failed to process request: " ++ e)),
           ("agent", Val.str agent_name)]

/-! ### AgentManager.process_market_research_request (src/agent_manager.py) -/

/-- One element of the `asyncio.gather(..., return_exceptions=True)` result:
either the value the sub-invocation returned or the exception it raised
(`gather` hands exceptions back as values). -/
inductive Gathered where
  | val (v : Val)
  | exn (e : String)

/-- `isinstance(r, dict) and r.get(\x27success\x27)` — the guard deciding
whether a gathered sub-result contributes its `data` slice. -/
def Gathered.successData : Gathered → Val
  | .val (.dict d) => if truthy (pyGet d "success") then pyGet d "data" else Val.none
  | _ => Val.none

/-- `isinstance(r, Exception) or (isinstance(r, dict) and not r.get(\x27success\x27))`
— the guard deciding whether a gathered sub-result adds an error entry. -/
def Gathered.isFailure : Gathered → Bool
  | .exn _ => true
  | .val (.dict d) => !truthy (pyGet d "success")
  | .val _ => false

/-- `AgentManager.process_market_research_request` after the
`asyncio.gather` join: compiles the comprehensive result from the three
gathered sub-results.  The surrounding `try` only fails if the aggregation
itself raises, which the pure model cannot; the `except` arm returning
`success=False` is therefore not reachable here. -/
def process_market_research_request (research_data : Obj)
    (market_result contacts_result trends_result : Gathered) : Obj :=
  let errors : List Val :=
    (if market_result.isFailure then [Val.str "Market analysis failed"] else [])
    ++ (if contacts_result.isFailure then [Val.str "Contact discovery failed"] else [])
    ++ (if trends_result.isFailure then [Val.str "Trend analysis failed"] else [])
  [("success", Val.bool true),
   ("research_id", pyGet research_data "research_id"),
   ("product_name", pyGetD research_data "product_name" (Val.str "Unknown Product")),
   ("target_country", pyGetD research_data "target_country" (Val.str "Global")),
   ("market_analysis", market_result.successData),
   ("contacts", contacts_result.successData),
   ("trends", trends_result.successData),
   ("errors", Val.list errors)]

/-! ## Theorems -/

/-- A gathered sub-result that counts as failed contributes `None` to its
output slot. -/
theorem Gathered.successData_of_isFailure {g : Gathered} (h : g.isFailure = true) :
    g.successData = Val.none := by
  cases g with
  | exn e => rfl
  | val v => cases v <;> simp_all [Gathered.isFailure, Gathered.successData]

/-- A gathered successful envelope contributes its `data` field. -/
theorem Gathered.successData_of_success {d : Obj} (h : truthy (pyGet d "success") = true) :
    (Gathered.val (Val.dict d)).successData = pyGet d "data" := by
  simp [Gathered.successData, h]

/-- A gathered successful envelope adds no error entry. -/
theorem Gathered.isFailure_of_success {d : Obj} (h : truthy (pyGet d "success") = true) :
    (Gathered.val (Val.dict d)).isFailure = false := by
  simp [Gathered.isFailure, h]

/-- C6.  Every envelope produced by the response formatters satisfies the
invariant: success implies a data field and no error field, failure implies
an error field and no data field. -/
theorem C6_response_formatter_invariant (name now msg : String) (data : Obj) :
    (pyGet (format_error_response name now msg) "success" = Val.bool false ∧
     hasKey (format_error_response name now msg) "error" = true ∧
     hasKey (format_error_response name now msg) "data" = false) ∧
    (pyGet (format_success_response name now data) "success" = Val.bool true ∧
     hasKey (format_success_response name now data) "data" = true ∧
     hasKey (format_success_response name now data) "error" = false) :=
  ⟨⟨rfl, rfl, rfl⟩, ⟨rfl, rfl, rfl⟩⟩

/-- C9 (amended).  An invocation of `process_request` changes exactly one
piece of agent state — the monitoring counter `request_count`, incremented
by one in `log_request` — and nothing else (name, capabilities,
creation time and the language table are untouched). -/
theorem C9_process_request_state (env : Env) (req : Obj) (tAg : TranslationAgent)
    (mAg : MarketResearchAgent) (bAg : BusinessIntelligenceAgent) :
    (TranslationAgent.process_request env tAg req).2.1 =
      { tAg with request_count := tAg.request_count + 1 } ∧
    (MarketResearchAgent.process_request env mAg req).2.1 =
      { mAg with request_count := mAg.request_count + 1 } ∧
    (BusinessIntelligenceAgent.process_request env bAg req).2.1 =
      { bAg with request_count := bAg.request_count + 1 } :=
  ⟨rfl, rfl, rfl⟩

/-- C9 (counterexample to the claim as stated).  Agents are not stateless:
a single invocation leaves the agent's state changed (its request counter
moved from 0 to 1). -/
theorem C9_counterexample :
    (TranslationAgent.process_request
        ⟨fun _ => "", fun _ => Option.none, "T"⟩
        (TranslationAgent.init "C")
        [("type", Val.str "language_detection"), ("text", Val.str "hello")]).2.1 ≠
      TranslationAgent.init "C" :=
  fun h => absurd (congrArg TranslationAgent.request_count h) (by decide)

/-- C10.  A `batch_translation` request whose `texts` field is the empty
list is rejected by the validator (the empty list is falsy), producing the
error envelope, with no outbound completion call; the batch loop is never
reached, so length preservation does not extend to N = 0. -/
theorem C10_empty_batch_rejected (env : Env) (ag : TranslationAgent) (req : Obj)
    (h : dictGet? req "texts" = Option.some (Val.list [])) :
    truthy (Val.list []) = false ∧
    batch_translate_h env ag req =
      (format_error_response ag.name env.now "Missing required fields for batch translation", []) := by
  refine ⟨rfl, ?_⟩
  simp [batch_translate_h, validate_request, h, truthy]

/-- C10 witness: the rejection at a concrete empty-batch request. -/
theorem C10_witness :
    truthy (Val.list []) = false ∧
    batch_translate_h ⟨fun _ => "", fun _ => Option.none, "T"⟩ (TranslationAgent.init "C")
        [("type", Val.str "batch_translation"), ("texts", Val.list []), ("target_language", Val.str "fr")] =
      (format_error_response "TranslationAgent" "T" "Missing required fields for batch translation", []) :=
  C10_empty_batch_rejected ⟨fun _ => "", fun _ => Option.none, "T"⟩ (TranslationAgent.init "C")
    [("type", Val.str "batch_translation"), ("texts", Val.list []), ("target_language", Val.str "fr")]
    rfl

/-- C8 (amended).  With the completion client stubbed to return `"fr"`, a
`language_detection` request for "Bonjour" produces a success envelope whose
data holds the original text, the detected code `fr`, the language name
`French` and confidence 0.9, together with the producing agent's name and
the invocation timestamp. -/
theorem C8_language_detection (l : String → Option Val) (now created_at : String) :
    (TranslationAgent.process_request ⟨fun _ => "fr", l, now⟩ (TranslationAgent.init created_at)
        [("type", Val.str "language_detection"), ("text", Val.str "Bonjour")]).1 =
      [("success", Val.bool true),
       ("data", Val.dict
         [("text", Val.str "Bonjour"),
          ("detected_language", Val.str "fr"),
          ("language_name", Val.str "French"),
          ("confidence", Val.num (9 / 10))]),
       ("agent", Val.str "TranslationAgent"),
       ("timestamp", Val.str now)] := rfl

/-- C8 (counterexample to the claim as stated).  The data payload is not
the three-field object the claim gives: it also carries the original text
under `"text"`. -/
theorem C8_counterexample :
    pyGet (TranslationAgent.process_request
        ⟨fun _ => "fr", fun _ => Option.none, "2024-01-01T00:00:00"⟩
        (TranslationAgent.init "2024-01-01T00:00:00")
        [("type", Val.str "language_detection"), ("text", Val.str "Bonjour")]).1 "data" ≠
      Val.dict
        [("detected_language", Val.str "fr"),
         ("language_name", Val.str "French"),
         ("confidence", Val.num (9 / 10))] :=
  fun h => absurd (congrArg pyLen h) (by decide)

/-- C2 (amended).  A request envelope that fails validation (some required
key missing or falsy) is rejected by every capability handler with
`success=false` and the handler's fixed per-capability error message — which
names the capability, not the individual missing field — and no outbound
completion call is made (the returned call list is empty). -/
theorem C2_validation_rejection :
    (∀ (env : Env) (ag : TranslationAgent) (req : Obj),
       validate_request req ["text", "target_language"] = false →
       translate_text_h env ag req =
         (format_error_response ag.name env.now "Missing required fields for text translation", [])) ∧
    (∀ (env : Env) (ag : TranslationAgent) (req : Obj),
       validate_request req ["texts", "target_language"] = false →
       batch_translate_h env ag req =
         (format_error_response ag.name env.now "Missing required fields for batch translation", [])) ∧
    (∀ (env : Env) (ag : TranslationAgent) (req : Obj),
       validate_request req ["country"] = false →
       provide_cultural_context_h env ag req =
         (format_error_response ag.name env.now "Missing required fields for cultural context", [])) ∧
    (∀ (env : Env) (ag : TranslationAgent) (req : Obj),
       validate_request req ["country", "situation"] = false →
       provide_business_etiquette_h env ag req =
         (format_error_response ag.name env.now "Missing required fields for business etiquette", [])) ∧
    (∀ (env : Env) (ag : TranslationAgent) (req : Obj),
       validate_request req ["text"] = false →
       detect_language_h env ag req =
         (format_error_response ag.name env.now "Missing required fields for language detection", [])) ∧
    (∀ (env : Env) (ag : MarketResearchAgent) (req : Obj),
       validate_request req ["product_name", "target_country"] = false →
       analyze_market_h env ag req =
         (format_error_response ag.name env.now "Missing required fields for market analysis", [])) ∧
    (∀ (env : Env) (ag : MarketResearchAgent) (req : Obj),
       validate_request req ["country", "industry"] = false →
       discover_contacts_h env ag req =
         (format_error_response ag.name env.now "Missing required fields for contact discovery", [])) ∧
    (∀ (env : Env) (ag : MarketResearchAgent) (req : Obj),
       validate_request req ["country"] = false →
       analyze_trends_h env ag req =
         (format_error_response ag.name env.now "Missing required fields for trend analysis", [])) ∧
    (∀ (env : Env) (ag : MarketResearchAgent) (req : Obj),
       validate_request req ["products"] = false →
       match_opportunities_h env ag req =
         (format_error_response ag.name env.now "Missing required fields for opportunity matching", [])) ∧
    (∀ (env : Env) (ag : BusinessIntelligenceAgent) (req : Obj),
       validate_request req ["user_id"] = false →
       analyze_user_performance_h env ag req =
         (format_error_response ag.name env.now "Missing required fields for user analytics", [])) ∧
    (∀ (env : Env) (ag : BusinessIntelligenceAgent) (req : Obj),
       validate_request req ["products"] = false →
       analyze_product_performance_h env ag req =
         (format_error_response ag.name env.now "Missing required fields for product insights", [])) ∧
    (∀ (env : Env) (ag : BusinessIntelligenceAgent) (req : Obj),
       validate_request req ["user_profile"] = false →
       generate_market_recommendations_h env ag req =
         (format_error_response ag.name env.now "Missing required fields for market recommendations", [])) ∧
    (∀ (env : Env) (ag : BusinessIntelligenceAgent) (req : Obj),
       validate_request req ["industry", "target_market"] = false →
       analyze_competition_h env ag req =
         (format_error_response ag.name env.now "Missing required fields for competitive analysis", [])) ∧
    (∀ (env : Env) (ag : BusinessIntelligenceAgent) (req : Obj),
       validate_request req ["user_data"] = false →
       identify_growth_opportunities_h env ag req =
         (format_error_response ag.name env.now "Missing required fields for growth opportunities", [])) := by
  refine ⟨?_, ?_, ?_, ?_, ?_, ?_, ?_, ?_, ?_, ?_, ?_, ?_, ?_, ?_⟩ <;>
    (intro env ag req h;
     simp [translate_text_h, batch_translate_h, provide_cultural_context_h,
       provide_business_etiquette_h, detect_language_h, analyze_market_h,
       discover_contacts_h, analyze_trends_h, match_opportunities_h,
       analyze_user_performance_h, analyze_product_performance_h,
       generate_market_recommendations_h, analyze_competition_h,
       identify_growth_opportunities_h, h])

/-- C2 witness: a concrete under-specified text-translation request is
rejected with the fixed message and zero outbound calls. -/
theorem C2_witness :
    validate_request [("text", Val.str "hi")] ["text", "target_language"] = false ∧
    translate_text_h ⟨fun _ => "", fun _ => Option.none, "T"⟩ (TranslationAgent.init "C")
        [("text", Val.str "hi")] =
      (format_error_response "TranslationAgent" "T" "Missing required fields for text translation", []) :=
  ⟨rfl, C2_validation_rejection.1 ⟨fun _ => "", fun _ => Option.none, "T"⟩
    (TranslationAgent.init "C") [("text", Val.str "hi")] rfl⟩

/-- C2 (counterexample to the claim as stated).  The error message returned
for a request missing `target_language` is the fixed capability-level
message; it does not name the missing field. -/
theorem C2_counterexample :
    pyGet (translate_text_h ⟨fun _ => "", fun _ => Option.none, "T"⟩ (TranslationAgent.init "C")
        [("text", Val.str "hi")]).1 "error" =
      Val.str "Missing required fields for text translation" ∧
    strContains "Missing required fields for text translation" "target_language" = false :=
  ⟨rfl, rfl⟩

/-- C7.  A completion that decodes as JSON is passed through unchanged —
whatever its shape — as the capability payload (shown for market analysis
and cultural context, the two handlers the claim cites). -/
theorem C7_parse_roundtrip :
    (∀ (env : Env) (ag : MarketResearchAgent) (req : Obj) (v : Val),
       validate_request req ["product_name", "target_country"] = true →
       env.loads (env.gpt (analyze_market_messages req)) = Option.some v →
       analyze_market_h env ag req =
         (format_success_response ag.name env.now
           [("market_analysis", v),
            ("product", pyGet req "product_name"),
            ("target_country", pyGet req "target_country"),
            ("analysis_date", Val.str ag.created_at)],
          [analyze_market_messages req])) ∧
    (∀ (env : Env) (ag : TranslationAgent) (req : Obj) (v : Val),
       validate_request req ["country"] = true →
       env.loads (env.gpt (cultural_messages req)) = Option.some v →
       provide_cultural_context_h env ag req =
         (format_success_response ag.name env.now
           [("cultural_context", v),
            ("country", pyGet req "country"),
            ("business_context", pyGetD req "business_context" (Val.str "general")),
            ("communication_type", pyGetD req "communication_type" (Val.str "email"))],
          [cultural_messages req])) := by
  constructor
  · intro env ag req v h1 h2
    simp [analyze_market_h, call_openai_gpt, h1, h2]
  · intro env ag req v h1 h2
    simp [provide_cultural_context_h, call_openai_gpt, h1, h2]

/-- C7 witness: a decoded completion — here deliberately not matching the
documented schema — is returned verbatim as the payload. -/
theorem C7_witness :
    analyze_market_h ⟨fun _ => "42", fun _ => Option.some (Val.num 42), "T"⟩
        (MarketResearchAgent.init "C")
        [("product_name", Val.str "Tea"), ("target_country", Val.str "Japan")] =
      (format_success_response "MarketResearchAgent" "T"
        [("market_analysis", Val.num 42),
         ("product", Val.str "Tea"),
         ("target_country", Val.str "Japan"),
         ("analysis_date", Val.str "C")],
       [analyze_market_messages [("product_name", Val.str "Tea"), ("target_country", Val.str "Japan")]]) :=
  C7_parse_roundtrip.1 ⟨fun _ => "42", fun _ => Option.some (Val.num 42), "T"⟩
    (MarketResearchAgent.init "C")
    [("product_name", Val.str "Tea"), ("target_country", Val.str "Japan")]
    (Val.num 42) rfl rfl

/-- C5.  Dispatching to an unregistered name yields an error envelope whose
`available_agents` lists exactly the registered names (hence not the
requested one, which is not registered); a registered agent whose handler
raises is caught, producing an error envelope naming the agent and the
exception text. -/
theorem C5_route_request_errors :
    (∀ (agents : Registry) (agent_name : String) (request_data : Obj),
       get_agent agents agent_name = Option.none →
       route_request agents agent_name request_data =
           [("success", Val.bool false),
            ("error", Val.str ("Agent " ++ agent_name ++ " not found")),
            ("available_agents", Val.list (agents.map (fun p => Val.str p.1)))] ∧
         agent_name ∉ agents.map (fun p => p.1)) ∧
    (∀ (agents : Registry) (agent_name : String) (request_data : Obj) (agent : Agent) (e : String),
       get_agent agents agent_name = Option.some agent →
       agent.process request_data = Except.error e →
       route_request agents agent_name request_data =
         [("success", Val.bool false),
          ("error", Val.str ("Agent " ++ agent_name ++ " failed to process request: " ++ e)),
          ("agent", Val.str agent_name)]) := by
  constructor
  · intro agents agent_name request_data h
    refine ⟨by simp [route_request, h], ?_⟩
    intro hmem
    rw [List.mem_map] at hmem
    obtain ⟨p, hp, hpe⟩ := hmem
    have hf : agents.find? (fun q => q.1 == agent_name) = Option.none := by
      cases hfind : agents.find? (fun q => q.1 == agent_name) with
      | none => rfl
      | some q => simp [get_agent, hfind] at h
    rw [List.find?_eq_none] at hf
    exact (by simpa [hpe] using hf p hp)
  · intro agents agent_name request_data agent e h1 h2
    simp [route_request, h1, h2]

/-- C5 witness: a one-agent registry, dispatched to an unknown name and to
the registered-but-raising agent. -/
theorem C5_witness :
    (route_request [("MarketResearchAgent", ⟨fun _ => Except.error "boom"⟩)] "Ghost" [] =
        [("success", Val.bool false),
         ("error", Val.str "Agent Ghost not found"),
         ("available_agents", Val.list [Val.str "MarketResearchAgent"])] ∧
      "Ghost" ∉ (([("MarketResearchAgent", (⟨fun _ => Except.error "boom"⟩ : Agent))] : Registry).map
          (fun p => p.1))) ∧
    route_request [("MarketResearchAgent", ⟨fun _ => Except.error "boom"⟩)] "MarketResearchAgent" [] =
      [("success", Val.bool false),
       ("error", Val.str "Agent MarketResearchAgent failed to process request: boom"),
       ("agent", Val.str "MarketResearchAgent")] :=
  ⟨C5_route_request_errors.1 [("MarketResearchAgent", ⟨fun _ => Except.error "boom"⟩)] "Ghost" [] rfl,
   C5_route_request_errors.2 [("MarketResearchAgent", ⟨fun _ => Except.error "boom"⟩)]
     "MarketResearchAgent" [] ⟨fun _ => Except.error "boom"⟩ "boom" rfl rfl⟩

/-- C4.  In the comprehensive-research aggregation, when exactly one of the
three gathered sub-results raised or returned an unsuccessful envelope and
the other two returned successful envelopes, the aggregate keeps
`success=true`, its `errors` list holds exactly the entry naming the failed
sub-analysis, the failed slot is `None` and the successful slots carry
their `data`; and the aggregate's `success` flag is `true` for every
combination of gathered results. -/
theorem C4_fanout_partial_failure :
    (∀ (rd : Obj) (g : Gathered) (d2 d3 : Obj),
       g.isFailure = true →
       truthy (pyGet d2 "success") = true →
       truthy (pyGet d3 "success") = true →
       process_market_research_request rd g (.val (.dict d2)) (.val (.dict d3)) =
         [("success", Val.bool true),
          ("research_id", pyGet rd "research_id"),
          ("product_name", pyGetD rd "product_name" (Val.str "Unknown Product")),
          ("target_country", pyGetD rd "target_country" (Val.str "Global")),
          ("market_analysis", Val.none),
          ("contacts", pyGet d2 "data"),
          ("trends", pyGet d3 "data"),
          ("errors", Val.list [Val.str "Market analysis failed"])]) ∧
    (∀ (rd : Obj) (g : Gathered) (d1 d3 : Obj),
       g.isFailure = true →
       truthy (pyGet d1 "success") = true →
       truthy (pyGet d3 "success") = true →
       process_market_research_request rd (.val (.dict d1)) g (.val (.dict d3)) =
         [("success", Val.bool true),
          ("research_id", pyGet rd "research_id"),
          ("product_name", pyGetD rd "product_name" (Val.str "Unknown Product")),
          ("target_country", pyGetD rd "target_country" (Val.str "Global")),
          ("market_analysis", pyGet d1 "data"),
          ("contacts", Val.none),
          ("trends", pyGet d3 "data"),
          ("errors", Val.list [Val.str "Contact discovery failed"])]) ∧
    (∀ (rd : Obj) (g : Gathered) (d1 d2 : Obj),
       g.isFailure = true →
       truthy (pyGet d1 "success") = true →
       truthy (pyGet d2 "success") = true →
       process_market_research_request rd (.val (.dict d1)) (.val (.dict d2)) g =
         [("success", Val.bool true),
          ("research_id", pyGet rd "research_id"),
          ("product_name", pyGetD rd "product_name" (Val.str "Unknown Product")),
          ("target_country", pyGetD rd "target_country" (Val.str "Global")),
          ("market_analysis", pyGet d1 "data"),
          ("contacts", pyGet d2 "data"),
          ("trends", Val.none),
          ("errors", Val.list [Val.str "Trend analysis failed"])]) ∧
    (∀ (rd : Obj) (g1 g2 g3 : Gathered),
       pyGet (process_market_research_request rd g1 g2 g3) "success" = Val.bool true) := by
  refine ⟨?_, ?_, ?_, fun rd g1 g2 g3 => rfl⟩ <;>
    (intro rd g d d' hg h2 h3;
     simp [process_market_research_request,
       Gathered.successData_of_isFailure hg, hg,
       Gathered.successData_of_success h2, Gathered.isFailure_of_success h2,
       Gathered.successData_of_success h3, Gathered.isFailure_of_success h3])

/-- C4 witness: one raising sub-call plus two successful envelopes. -/
theorem C4_witness :
    process_market_research_request [] (.exn "ConnectionError")
        (.val (.dict [("success", Val.bool true), ("data", Val.str "c")]))
        (.val (.dict [("success", Val.bool true), ("data", Val.str "t")])) =
      [("success", Val.bool true),
       ("research_id", Val.none),
       ("product_name", Val.str "Unknown Product"),
       ("target_country", Val.str "Global"),
       ("market_analysis", Val.none),
       ("contacts", Val.str "c"),
       ("trends", Val.str "t"),
       ("errors", Val.list [Val.str "Market analysis failed"])] :=
  C4_fanout_partial_failure.1 [] (.exn "ConnectionError")
    [("success", Val.bool true), ("data", Val.str "c")]
    [("success", Val.bool true), ("data", Val.str "t")] rfl rfl rfl

/-- The batch loop yields one result entry per input text. -/
theorem batch_loop_length (env : Env) (ag : TranslationAgent) (tl sl ctx : Val) :
    ∀ (texts : List Val) (i : ℕ),
      ((batch_loop env ag tl sl ctx i texts).1).length = texts.length := by
  intro texts
  induction texts with
  | nil => intro i; rfl
  | cons t rest ih => intro i; simp [batch_loop, ih]

/-- Every batch entry carries its index and its original text, and a
failed entry keeps the original text as its translated value. -/
theorem batch_entry_props (i : ℕ) (t : Val) (r : Obj) :
    (batch_entry i t r).getKey "index" = Val.num (i : ℚ) ∧
    (batch_entry i t r).getKey "original" = t ∧
    (truthy ((batch_entry i t r).getKey "success") = false →
      (batch_entry i t r).getKey "translated" = t) := by
  unfold batch_entry
  cases hc : truthy (pyGet r "success")
  · exact ⟨rfl, rfl, fun _ => rfl⟩
  · exact ⟨rfl, rfl, fun h => nomatch h⟩

/-- The j-th batch entry carries index `i + j`, the j-th input as
`original`, and — when the element failed — the j-th input again as
`translated`. -/
theorem batch_loop_get (env : Env) (ag : TranslationAgent) (tl sl ctx : Val) :
    ∀ (texts : List Val) (i j : ℕ) (hj : j < texts.length),
      ∃ he : j < ((batch_loop env ag tl sl ctx i texts).1).length,
        (((batch_loop env ag tl sl ctx i texts).1).get ⟨j, he⟩).getKey "index" =
            Val.num ((i + j : ℕ) : ℚ) ∧
          (((batch_loop env ag tl sl ctx i texts).1).get ⟨j, he⟩).getKey "original" =
            texts.get ⟨j, hj⟩ ∧
          (truthy ((((batch_loop env ag tl sl ctx i texts).1).get ⟨j, he⟩).getKey "success") = false →
            (((batch_loop env ag tl sl ctx i texts).1).get ⟨j, he⟩).getKey "translated" =
              texts.get ⟨j, hj⟩) := by
  intro texts
  induction texts with
  | nil => intro i j hj; exact absurd hj (by simp)
  | cons t rest ih =>
      intro i j hj
      cases j with
      | zero =>
          have hp := batch_entry_props i t (translate_text_h env ag
            [("text", t), ("target_language", tl), ("source_language", sl), ("context", ctx)]).1
          exact ⟨by simp [batch_loop_length], hp.1, hp.2.1, hp.2.2⟩
      | succ j =>
          have hj' : j < rest.length := by simpa using hj
          obtain ⟨he, h1, h2, h3⟩ := ih (i + 1) j hj'
          have harith : i + (j + 1) = (i + 1) + j := by omega
          refine ⟨by simpa [batch_loop_length] using Nat.succ_lt_succ (by simpa [batch_loop_length] using hj'), ?_, ?_, ?_⟩
          · rw [harith]; exact h1
          · exact h2
          · exact h3

/-- C3 (amended).  For every `batch_translation` request that passes
validation — which requires a non-empty `texts` list — the handler returns
a success envelope with exactly one result entry per input text, in input
order (entry j carries index j and the j-th input as `original`), and a
failed element contributes its original text as the `translated` value, so
the output list always has the input's length. -/
theorem C3_batch_length_preservation (env : Env) (ag : TranslationAgent) (req : Obj)
    (texts : List Val)
    (h1 : dictGet? req "texts" = Option.some (Val.list texts))
    (h2 : validate_request req ["texts", "target_language"] = true) :
    ∃ entries : List Val,
      pyGet (batch_translate_h env ag req).1 "success" = Val.bool true ∧
      (pyGet (batch_translate_h env ag req).1 "data").getKey "translations" = Val.list entries ∧
      (pyGet (batch_translate_h env ag req).1 "data").getKey "total_texts" =
        Val.num (texts.length : ℚ) ∧
      entries.length = texts.length ∧
      ∀ (j : ℕ) (hj : j < texts.length),
        ∃ he : j < entries.length,
          (entries.get ⟨j, he⟩).getKey "index" = Val.num (j : ℚ) ∧
          (entries.get ⟨j, he⟩).getKey "original" = texts.get ⟨j, hj⟩ ∧
          (truthy ((entries.get ⟨j, he⟩).getKey "success") = false →
            (entries.get ⟨j, he⟩).getKey "translated" = texts.get ⟨j, hj⟩) := by
  have hbt : batch_translate_h env ag req =
      (format_success_response ag.name env.now
        [("translations", Val.list (batch_loop env ag (pyGet req "target_language")
            (pyGetD req "source_language" (Val.str "auto"))
            (pyGetD req "context" (Val.str "general")) 0 texts).1),
         ("total_texts", Val.num (texts.length : ℚ)),
         ("successful_translations", Val.num (((batch_loop env ag (pyGet req "target_language")
            (pyGetD req "source_language" (Val.str "auto"))
            (pyGetD req "context" (Val.str "general")) 0 texts).1.countP
              (fun t => truthy (t.getKey "success"))) : ℚ)),
         ("target_language", pyGet req "target_language")],
       (batch_loop env ag (pyGet req "target_language")
          (pyGetD req "source_language" (Val.str "auto"))
          (pyGetD req "context" (Val.str "general")) 0 texts).2) := by
    simp [batch_translate_h, pyGet, h1, h2]
  refine ⟨(batch_loop env ag (pyGet req "target_language")
      (pyGetD req "source_language" (Val.str "auto"))
      (pyGetD req "context" (Val.str "general")) 0 texts).1, ?_, ?_, ?_, ?_, ?_⟩
  · rw [hbt]; rfl
  · rw [hbt]; rfl
  · rw [hbt]; rfl
  · exact batch_loop_length env ag _ _ _ texts 0
  · intro j hj
    simpa using batch_loop_get env ag (pyGet req "target_language")
      (pyGetD req "source_language" (Val.str "auto"))
      (pyGetD req "context" (Val.str "general")) texts 0 j hj

/-- C3 witness: a two-element batch — one translatable element and one
empty string whose inner validation fails — still yields two entries with
the originals in order. -/
theorem C3_witness :
    ∃ entries : List Val,
      pyGet (batch_translate_h ⟨fun _ => "Hola", fun _ => Option.none, "T"⟩
          (TranslationAgent.init "C")
          [("type", Val.str "batch_translation"),
           ("texts", Val.list [Val.str "hi", Val.str ""]),
           ("target_language", Val.str "es")]).1 "success" = Val.bool true ∧
      (pyGet (batch_translate_h ⟨fun _ => "Hola", fun _ => Option.none, "T"⟩
          (TranslationAgent.init "C")
          [("type", Val.str "batch_translation"),
           ("texts", Val.list [Val.str "hi", Val.str ""]),
           ("target_language", Val.str "es")]).1 "data").getKey "translations" = Val.list entries ∧
      (pyGet (batch_translate_h ⟨fun _ => "Hola", fun _ => Option.none, "T"⟩
          (TranslationAgent.init "C")
          [("type", Val.str "batch_translation"),
           ("texts", Val.list [Val.str "hi", Val.str ""]),
           ("target_language", Val.str "es")]).1 "data").getKey "total_texts" =
        Val.num ((2 : ℕ) : ℚ) ∧
      entries.length = 2 ∧
      ∀ (j : ℕ) (hj : j < ([Val.str "hi", Val.str ""] : List Val).length),
        ∃ he : j < entries.length,
          (entries.get ⟨j, he⟩).getKey "index" = Val.num (j : ℚ) ∧
          (entries.get ⟨j, he⟩).getKey "original" =
            ([Val.str "hi", Val.str ""] : List Val).get ⟨j, hj⟩ ∧
          (truthy ((entries.get ⟨j, he⟩).getKey "success") = false →
            (entries.get ⟨j, he⟩).getKey "translated" =
              ([Val.str "hi", Val.str ""] : List Val).get ⟨j, hj⟩) :=
  C3_batch_length_preservation ⟨fun _ => "Hola", fun _ => Option.none, "T"⟩
    (TranslationAgent.init "C")
    [("type", Val.str "batch_translation"),
     ("texts", Val.list [Val.str "hi", Val.str ""]),
     ("target_language", Val.str "es")]
    [Val.str "hi", Val.str ""] rfl rfl

/-- C3 (counterexample to the claim as stated).  For the empty input list
the handler does not return zero result entries: validation rejects the
request and an error envelope without any data is returned. -/
theorem C3_counterexample :
    pyGet (batch_translate_h ⟨fun _ => "X", fun _ => Option.none, "T"⟩ (TranslationAgent.init "C")
        [("type", Val.str "batch_translation"), ("texts", Val.list []),
         ("target_language", Val.str "es")]).1 "success" = Val.bool false ∧
    pyGet (batch_translate_h ⟨fun _ => "X", fun _ => Option.none, "T"⟩ (TranslationAgent.init "C")
        [("type", Val.str "batch_translation"), ("texts", Val.list []),
         ("target_language", Val.str "es")]).1 "data" = Val.none :=
  ⟨rfl, rfl⟩

/-- Summing a constant over a list. -/
theorem list_sum_const (c : ℚ) : ∀ l : List Val, (l.map (fun _ => c)).sum = (l.length : ℚ) * c := by
  intro l
  induction l with
  | nil => simp
  | cons p rest ih => simp [ih]; ring

/-- With every completion failing to decode, the `_match_opportunities`
loop appends exactly one raw-text-free fallback opportunity per product. -/
theorem opportunities_loop_parse_fail (env : Env)
    (hl : env.loads = fun _ => Option.none) (tc : Val) :
    ∀ ps : List Val,
      opportunities_loop env tc ps =
        (ps.map (fun p => fallback_opportunity (p.getD "name" (Val.str "Unknown Product")) p),
         ps.map (fun p => opportunity_messages tc p)) := by
  intro ps
  induction ps with
  | nil => rfl
  | cons p rest ih => simp [opportunities_loop, call_openai_gpt, hl, ih]

/-- With every completion failing to decode, the `_analyze_product_performance`
loop appends exactly one fallback insight per product, carrying that
product's raw completion under `"analysis_text"`. -/
theorem product_insights_loop_parse_fail (env : Env)
    (hl : env.loads = fun _ => Option.none) :
    ∀ ps : List Val,
      product_insights_loop env ps =
        (ps.map (fun p => Val.dict
          [("product", p),
           ("performance_score", Val.num 70),
           ("analysis_text", Val.str (env.gpt (product_insights_messages p))),
           ("optimization_tips", Val.list
             [Val.str "Improve product description", Val.str "Add more images"])]),
         ps.map (fun p => product_insights_messages p)) := by
  intro ps
  induction ps with
  | nil => rfl
  | cons p rest ih => simp [product_insights_loop, call_openai_gpt, hl, ih]

/-- C1 (amended).  For every capability handler that parses completions and
every completion that is not valid JSON, the parse failure is silently
downgraded to a success envelope carrying the capability-specific fallback
payload.  The fallback preserves the raw completion verbatim in its
designated free-text field for market analysis, trend analysis, cultural
context, business etiquette, user analytics, market recommendations,
competitive analysis, growth opportunities and per-product product
insights — but not for contact discovery and opportunity matching, whose
fallbacks substitute mock/default data and discard the raw completion. -/
theorem C1_parse_failure_fallback :
    (∀ (env : Env) (ag : MarketResearchAgent) (req : Obj),
       validate_request req ["product_name", "target_country"] = true →
       env.loads (env.gpt (analyze_market_messages req)) = Option.none →
       analyze_market_h env ag req =
         (format_success_response ag.name env.now
           [("market_analysis", Val.dict
              [("analysis_text", Val.str (env.gpt (analyze_market_messages req))),
               ("market_size", Val.dict
                 [("value", Val.str "Data not available"), ("currency", Val.str "USD"),
                  ("year", Val.str "2024")]),
               ("growth_rate", Val.str "To be determined"),
               ("recommendations", Val.list
                 [Val.str "Conduct detailed market survey", Val.str "Engage local partners"])]),
            ("product", pyGet req "product_name"),
            ("target_country", pyGet req "target_country"),
            ("analysis_date", Val.str ag.created_at)],
          [analyze_market_messages req])) ∧
    (∀ (env : Env) (ag : MarketResearchAgent) (req : Obj),
       validate_request req ["country"] = true →
       env.loads (env.gpt (trends_messages req)) = Option.none →
       analyze_trends_h env ag req =
         (format_success_response ag.name env.now
           [("trends_analysis", Val.dict
              [("trends_text", Val.str (env.gpt (trends_messages req))),
               ("market_outlook", Val.str "neutral"),
               ("recommendations", Val.list
                 [Val.str "Conduct detailed trend analysis", Val.str "Monitor market developments"])]),
            ("country", pyGet req "country"),
            ("industry", pyGetD req "industry" (Val.str "General")),
            ("timeframe", pyGetD req "timeframe" (Val.str "2024-2025"))],
          [trends_messages req])) ∧
    (∀ (env : Env) (ag : TranslationAgent) (req : Obj),
       validate_request req ["country"] = true →
       env.loads (env.gpt (cultural_messages req)) = Option.none →
       provide_cultural_context_h env ag req =
         (format_success_response ag.name env.now
           [("cultural_context", Val.dict
              [("cultural_advice", Val.str (env.gpt (cultural_messages req))),
               ("country", pyGet req "country"),
               ("tips", Val.list
                 [Val.str "Research local customs", Val.str "Be respectful of cultural differences"])]),
            ("country", pyGet req "country"),
            ("business_context", pyGetD req "business_context" (Val.str "general")),
            ("communication_type", pyGetD req "communication_type" (Val.str "email"))],
          [cultural_messages req])) ∧
    (∀ (env : Env) (ag : TranslationAgent) (req : Obj),
       validate_request req ["country", "situation"] = true →
       env.loads (env.gpt (etiquette_messages req)) = Option.none →
       provide_business_etiquette_h env ag req =
         (format_success_response ag.name env.now
           [("business_etiquette", Val.dict
              [("etiquette_advice", Val.str (env.gpt (etiquette_messages req))),
               ("general_tips", Val.list
                 [Val.str "Be respectful", Val.str "Research local customs", Val.str "Be punctual"])]),
            ("country", pyGet req "country"),
            ("situation", pyGet req "situation")],
          [etiquette_messages req])) ∧
    (∀ (env : Env) (ag : BusinessIntelligenceAgent) (req : Obj),
       validate_request req ["user_id"] = true →
       env.loads (env.gpt (user_analytics_messages req)) = Option.none →
       analyze_user_performance_h env ag req =
         (format_success_response ag.name env.now
           [("user_analytics", Val.dict
              [("performance_score", Val.num 75),
               ("profile_completion", Val.num 80),
               ("recommendations", Val.list
                 [Val.str "Complete your business profile", Val.str "Add more product photos",
                  Val.str "Respond to messages faster"]),
               ("analysis_text", Val.str (env.gpt (user_analytics_messages req)))]),
            ("user_id", pyGet req "user_id"),
            ("time_period", pyGetD req "time_period" (Val.str "30_days")),
            ("generated_at", Val.str env.now)],
          [user_analytics_messages req])) ∧
    (∀ (env : Env) (ag : BusinessIntelligenceAgent) (req : Obj),
       validate_request req ["user_profile"] = true →
       env.loads (env.gpt (recommendations_messages req)) = Option.none →
       generate_market_recommendations_h env ag req =
         (format_success_response ag.name env.now
           [("market_recommendations", Val.dict
              [("recommendations_text", Val.str (env.gpt (recommendations_messages req))),
               ("priority_markets", Val.list
                 [Val.dict [("country", Val.str "Global"), ("opportunity_score", Val.num 75)]]),
               ("strategic_recommendations", Val.list
                 [Val.dict [("recommendation", Val.str "Conduct market research"),
                            ("priority", Val.str "high")]])]),
            ("user_country", (pyGet req "user_profile").getD "country" (Val.str "Unknown")),
            ("industry", pyGetD req "industry" (Val.str "General"))],
          [recommendations_messages req])) ∧
    (∀ (env : Env) (ag : BusinessIntelligenceAgent) (req : Obj),
       validate_request req ["industry", "target_market"] = true →
       env.loads (env.gpt (competition_messages req)) = Option.none →
       analyze_competition_h env ag req =
         (format_success_response ag.name env.now
           [("competitive_analysis", Val.dict
              [("analysis_text", Val.str (env.gpt (competition_messages req))),
               ("market_dynamics", Val.dict [("competition_intensity", Val.str "medium")]),
               ("recommendations", Val.list [Val.str "Conduct detailed competitive research"])]),
            ("industry", pyGet req "industry"),
            ("target_market", pyGet req "target_market")],
          [competition_messages req])) ∧
    (∀ (env : Env) (ag : BusinessIntelligenceAgent) (req : Obj),
       validate_request req ["user_data"] = true →
       env.loads (env.gpt (growth_messages req)) = Option.none →
       identify_growth_opportunities_h env ag req =
         (format_success_response ag.name env.now
           [("growth_opportunities", Val.dict
              [("growth_analysis", Val.str (env.gpt (growth_messages req))),
               ("growth_opportunities", Val.list
                 [Val.dict
                   [("type", Val.str "market_expansion"),
                    ("title", Val.str "Explore new markets"),
                    ("potential_impact", Val.str "high"),
                    ("key_steps", Val.list
                      [Val.str "Market research", Val.str "Local partnerships"])]])]),
            ("analysis_date", Val.str env.now)],
          [growth_messages req])) ∧
    (∀ (env : Env) (ag : MarketResearchAgent) (req : Obj),
       validate_request req ["country", "industry"] = true →
       env.loads (env.gpt (contact_messages req)) = Option.none →
       discover_contacts_h env ag req =
         (format_success_response ag.name env.now
           [("contacts", Val.list (generate_mock_contacts (pyStr (pyGet req "country"))
              (pyStr (pyGet req "industry")) (pyStr (pyGetD req "contact_type" (Val.str "buyer"))))),
            ("total_found", Val.num ((generate_mock_contacts (pyStr (pyGet req "country"))
              (pyStr (pyGet req "industry")) (pyStr (pyGetD req "contact_type" (Val.str "buyer")))).length : ℚ)),
            ("search_criteria", Val.dict
              [("country", pyGet req "country"),
               ("industry", pyGet req "industry"),
               ("company_size", pyGetD req "company_size" (Val.str "any")),
               ("contact_type", pyGetD req "contact_type" (Val.str "buyer"))])],
          [contact_messages req])) ∧
    (∀ (env : Env) (ag : MarketResearchAgent) (req : Obj) (ps : List Val),
       env.loads = (fun _ => Option.none) →
       validate_request req ["products"] = true →
       pyGet req "products" = Val.list ps →
       match_opportunities_h env ag req =
         (format_success_response ag.name env.now
           [("opportunities", Val.list (ps.map (fun p =>
              fallback_opportunity (p.getD "name" (Val.str "Unknown Product")) p))),
            ("total_found", Val.num (ps.length : ℚ)),
            ("products_analyzed", Val.num (ps.length : ℚ))],
          ps.map (fun p => opportunity_messages (pyGetD req "target_countries" (Val.list [])) p))) ∧
    (∀ (env : Env) (ag : BusinessIntelligenceAgent) (req : Obj) (ps : List Val),
       env.loads = (fun _ => Option.none) →
       validate_request req ["products"] = true →
       pyGet req "products" = Val.list ps →
       analyze_product_performance_h env ag req =
         (format_success_response ag.name env.now
           [("product_insights", Val.list (ps.map (fun p => Val.dict
              [("product", p),
               ("performance_score", Val.num 70),
               ("analysis_text", Val.str (env.gpt (product_insights_messages p))),
               ("optimization_tips", Val.list
                 [Val.str "Improve product description", Val.str "Add more images"])]))),
            ("total_products_analyzed", Val.num (ps.length : ℚ)),
            ("overall_portfolio_score", Val.num (if ps.isEmpty then 0 else 70))],
          ps.map (fun p => product_insights_messages p))) := by
  refine ⟨?_, ?_, ?_, ?_, ?_, ?_, ?_, ?_, ?_, ?_, ?_⟩
  · intro env ag req hv hp
    simp [analyze_market_h, call_openai_gpt, hv, hp]
  · intro env ag req hv hp
    simp [analyze_trends_h, call_openai_gpt, hv, hp]
  · intro env ag req hv hp
    simp [provide_cultural_context_h, call_openai_gpt, hv, hp]
  · intro env ag req hv hp
    simp [provide_business_etiquette_h, call_openai_gpt, hv, hp]
  · intro env ag req hv hp
    simp [analyze_user_performance_h, call_openai_gpt, hv, hp]
  · intro env ag req hv hp
    simp [generate_market_recommendations_h, call_openai_gpt, hv, hp]
  · intro env ag req hv hp
    simp [analyze_competition_h, call_openai_gpt, hv, hp]
  · intro env ag req hv hp
    simp [identify_growth_opportunities_h, call_openai_gpt, hv, hp]
  · intro env ag req hv hp
    simp [discover_contacts_h, call_openai_gpt, hv, hp, pyLen]
  · intro env ag req ps hl hv hps
    simp [match_opportunities_h, hv, hps, opportunities_loop_parse_fail env hl]
  · intro env ag req ps hl hv hps
    have hcomp : ((fun p => asNum (p.getD "performance_score" (Val.num 70))) ∘
        (fun p => Val.dict
          [("product", p),
           ("performance_score", Val.num 70),
           ("analysis_text", Val.str (env.gpt (product_insights_messages p))),
           ("optimization_tips", Val.list
             [Val.str "Improve product description", Val.str "Add more images"])])) =
        (fun _ : Val => (70 : ℚ)) :=
      funext fun p => rfl
    simp only [analyze_product_performance_h, hv, Bool.not_true, Bool.false_eq_true,
      if_false, hps, product_insights_loop_parse_fail env hl, List.map_map, hcomp,
      list_sum_const, List.length_map]
    rcases ps with _ | ⟨p, rest⟩
    · simp
    · simp only [List.isEmpty_cons, List.map_cons, Bool.false_eq_true, if_false,
        List.length_cons]
      rw [mul_div_cancel_left₀]
      push_cast
      positivity

/-- C1 witness: with the completion stubbed to informal prose and decoding
failing, market analysis keeps the raw text in `analysis_text`, while
contact discovery substitutes its mock contacts. -/
theorem C1_witness :
    (analyze_market_h ⟨fun _ => "plain prose answer", fun _ => Option.none, "T"⟩
        (MarketResearchAgent.init "C")
        [("product_name", Val.str "Tea"), ("target_country", Val.str "Japan")] =
      (format_success_response "MarketResearchAgent" "T"
        [("market_analysis", Val.dict
           [("analysis_text", Val.str "plain prose answer"),
            ("market_size", Val.dict
              [("value", Val.str "Data not available"), ("currency", Val.str "USD"),
               ("year", Val.str "2024")]),
            ("growth_rate", Val.str "To be determined"),
            ("recommendations", Val.list
              [Val.str "Conduct detailed market survey", Val.str "Engage local partners"])]),
         ("product", Val.str "Tea"),
         ("target_country", Val.str "Japan"),
         ("analysis_date", Val.str "C")],
       [analyze_market_messages [("product_name", Val.str "Tea"), ("target_country", Val.str "Japan")]])) ∧
    (discover_contacts_h ⟨fun _ => "plain prose answer", fun _ => Option.none, "T"⟩
        (MarketResearchAgent.init "C")
        [("country", Val.str "Italy"), ("industry", Val.str "Coffee")] =
      (format_success_response "MarketResearchAgent" "T"
        [("contacts", Val.list (generate_mock_contacts "Italy" "Coffee" "buyer")),
         ("total_found", Val.num ((generate_mock_contacts "Italy" "Coffee" "buyer").length : ℚ)),
         ("search_criteria", Val.dict
           [("country", Val.str "Italy"), ("industry", Val.str "Coffee"),
            ("company_size", Val.str "any"), ("contact_type", Val.str "buyer")])],
       [contact_messages [("country", Val.str "Italy"), ("industry", Val.str "Coffee")]])) :=
  ⟨C1_parse_failure_fallback.1 ⟨fun _ => "plain prose answer", fun _ => Option.none, "T"⟩
     (MarketResearchAgent.init "C")
     [("product_name", Val.str "Tea"), ("target_country", Val.str "Japan")] rfl rfl,
   C1_parse_failure_fallback.2.2.2.2.2.2.2.2.1
     ⟨fun _ => "plain prose answer", fun _ => Option.none, "T"⟩
     (MarketResearchAgent.init "C")
     [("country", Val.str "Italy"), ("industry", Val.str "Coffee")] rfl rfl⟩

/-- C1 (counterexample to the claim as stated).  For contact discovery the
non-JSON completion is downgraded to a success envelope, but the raw
completion text is discarded: it appears nowhere in the returned envelope,
in particular not in any designated free-text field. -/
theorem C1_counterexample :
    pyGet (discover_contacts_h ⟨fun _ => "@@RAW-COMPLETION@@", fun _ => Option.none, "T"⟩
        (MarketResearchAgent.init "C")
        [("country", Val.str "Italy"), ("industry", Val.str "Coffee")]).1 "success" = Val.bool true ∧
    objContainsStr "@@RAW-COMPLETION@@"
        (discover_contacts_h ⟨fun _ => "@@RAW-COMPLETION@@", fun _ => Option.none, "T"⟩
          (MarketResearchAgent.init "C")
          [("country", Val.str "Italy"), ("industry", Val.str "Coffee")]).1 = false :=
  ⟨rfl, rfl⟩

end GlobalTrade
